import Mathlib

/-!
Shallow embedding of the vidaryproject detection/upload/storage core.

Sources embedded here:
- server detection router (unnamed part 008, first document):
  analyzeImage, analyzeAudio, analyzeVideo, analyzeText, checkDuplicate,
  getHistory, getResult, getFilteredHistory, exportResults;
- server/db.ts (first document): findDuplicateAnalysis,
  getDetectionResultById, getUserDetectionHistory,
  getFilteredDetectionHistory, getDetectionResultsForExport;
- server/aiornot.ts: getTopDetectedGenerator;
- storage adapter (unnamed part 009): storagePut;
- api/upload.ts: both handler variants (the file holds two versions of the
  handler; both are embedded, as uploadHandler and uploadHandlerV2);
- drizzle/schema.ts: the detection_results row shape and its column defaults.

External effects (database, object storage, the AI-or-Not HTTP API, fetch of
a caller-supplied URL, the wall clock) are passed in explicitly as an
environment of oracles; each operation additionally returns the ordered list
of effect events it performed, so ordering claims (what was called before
what) are provable.  Machine numbers are modelled as Nat / Int / Rat; byte
buffers as lists of bytes.  Base64 payloads are represented by their decoded
bytes, since the code only ever uses the decoded buffer.
-/

namespace Vidary

/-- A byte buffer (the decoded contents of a Buffer). -/
abbrev ByteBuf := List Nat

/-- Detection verdict, the mysqlEnum verdict column. -/
inductive Verdict
  | ai
  | human
  deriving DecidableEq, Repr

/-- TRPC error codes used by the detection router. -/
inductive ErrCode
  | BAD_REQUEST
  | FORBIDDEN
  | INTERNAL_SERVER_ERROR
  | NOT_FOUND
  deriving DecidableEq, Repr

/-- A thrown TRPCError: code plus message. -/
structure TrpcError where
  code : ErrCode
  message : String
  deriving DecidableEq, Repr

/-- Does the needle occur as a contiguous run somewhere in the haystack? -/
def charsInfix (needle : List Char) : List Char → Bool
  | [] => needle.isEmpty
  | c :: rest => needle.isPrefixOf (c :: rest) || charsInfix needle rest

/-- JS substring test, String.prototype.includes(needle). -/
def strContains (hay needle : String) : Bool :=
  charsInfix needle.data hay.data

/-- JS truthiness of an optional string: undefined and the empty string are
falsy, every other string is truthy. -/
def jsStr : Option String → Bool
  | none => false
  | some s => s ≠ ""

/-- Math.round for nonnegative rationals: round half away from zero, which on
the values arising here (nonnegative) is floor of x + 1/2. -/
def jsRound (x : ℚ) : ℤ :=
  ⌊x + 1/2⌋

/-- Left-pad a numeral string with zeros to 4 characters. -/
def pad4 (n : Nat) : String :=
  let s := toString n
  if s.length ≥ 4 then s
  else String.mk (List.replicate (4 - s.length) '0') ++ s

/-- Number.prototype.toFixed(4) on a nonnegative rational.  For the values
reachable in this code (integer percents divided by 100, and small decimal
confidences) this agrees with the JS double formatting. -/
def toFixed4 (q : ℚ) : String :=
  let n : ℤ := ⌊q * 10000 + 1/2⌋
  let m : Nat := n.toNat
  toString (m / 10000) ++ "." ++ pad4 (m % 10000)

/-- The confidence post-processing shared by the analyze operations:
confidencePercent = Math.round(confidence * 100);
confidence = (confidencePercent / 100).toFixed(4). -/
def formatConfidence (c : ℚ) : String :=
  toFixed4 ((jsRound (c * 100) : ℚ) / 100)

/-- Generator label to score map; Object.entries order is insertion order,
so the map is carried as an association list. -/
abbrev GenScores := List (String × ℚ)

/-- aiornot.ts getTopDetectedGenerator: walk the entries keeping the entry
whose score strictly exceeds the best so far, starting from the sentinel
topGenerator = "" / topScore = 0; return null for an empty map or when the
sentinel survives. -/
def getTopDetectedGenerator (generatorScores : GenScores) : Option String :=
  if generatorScores.isEmpty then
    none
  else
    let r := generatorScores.foldl
      (fun acc p => if p.2 > acc.2 then p else acc) ("", (0 : ℚ))
    if r.1 = "" then none else some r.1

/-! ## Data model: drizzle/schema.ts detection_results -/

/-- A persisted detection_results row (drizzle/schema.ts).  The raw upstream
payload column is opaque to every claim and is kept abstract as a string.
Timestamps are Nat milliseconds.  Nullable columns are Options; the s3Key
column may also hold the empty string (the text path inserts ""), and JS
truthiness treats NULL and "" alike. -/
structure DetectionRow where
  id : Nat
  userId : Nat
  fileName : String
  fileType : String
  fileSize : Nat
  fileHash : Option String
  s3Key : Option String
  verdict : Verdict
  confidence : String
  detectedGenerator : Option String
  generatorScores : GenScores
  rawResponse : String
  processingTimeMs : Nat
  isDuplicate : Nat
  duplicateOfId : Option Nat
  createdAt : Nat
  deriving DecidableEq, Repr

/-- The object literal the router passes to createDetectionResult.  It
mirrors the JS insert object field for field: in particular it has no
duplicateOfId field, because the code never supplies one. -/
structure InsertDetectionResult where
  userId : Nat
  fileName : String
  fileType : String
  fileSize : Nat
  fileHash : Option String
  s3Key : Option String
  verdict : Verdict
  confidence : String
  detectedGenerator : Option String
  generatorScores : GenScores
  rawResponse : String
  processingTimeMs : Nat
  isDuplicate : Nat
  deriving DecidableEq, Repr

/-- How the database materialises an insert: the provided columns are
stored as given; columns absent from the insert object take their schema
defaults, so duplicateOfId (never supplied) becomes NULL. -/
def rowOfInsert (id : Nat) (createdAt : Nat) (ins : InsertDetectionResult) :
    DetectionRow :=
  { id := id
    userId := ins.userId
    fileName := ins.fileName
    fileType := ins.fileType
    fileSize := ins.fileSize
    fileHash := ins.fileHash
    s3Key := ins.s3Key
    verdict := ins.verdict
    confidence := ins.confidence
    detectedGenerator := ins.detectedGenerator
    generatorScores := ins.generatorScores
    rawResponse := ins.rawResponse
    processingTimeMs := ins.processingTimeMs
    isDuplicate := ins.isDuplicate
    duplicateOfId := none
    createdAt := createdAt }

/-! ## db.ts query layer

The database is a list of rows in insertion order.  ORDER BY createdAt DESC
is modelled by an insertion sort on the createdAt column (descending); the
claims only depend on membership. -/

/-- Insert one row into a list sorted by descending key. -/
def insertDescBy (f : DetectionRow → Nat) (r : DetectionRow) :
    List DetectionRow → List DetectionRow
  | [] => [r]
  | x :: xs => if f x ≤ f r then r :: x :: xs else x :: insertDescBy f r xs

/-- Sort rows by descending key (models ORDER BY ... DESC). -/
def sortDescBy (f : DetectionRow → Nat) : List DetectionRow → List DetectionRow
  | [] => []
  | x :: xs => insertDescBy f x (sortDescBy f xs)

/-- db.ts findDuplicateAnalysis: SELECT ... WHERE userId = ? AND
fileHash = ? LIMIT 1, returning the first match or undefined. -/
def findDuplicateAnalysis (db : List DetectionRow) (userId : Nat)
    (fileHash : String) : Option DetectionRow :=
  (db.filter (fun r => r.userId == userId && r.fileHash == some fileHash)).head?

/-- db.ts getDetectionResultById: the userId condition is pushed only when
the argument is truthy (a JS number is falsy exactly when it is 0). -/
def getDetectionResultById (db : List DetectionRow) (id : Nat)
    (userId : Option Nat) : Option DetectionRow :=
  let cond := fun r =>
    r.id == id &&
      (match userId with
       | some u => if u ≠ 0 then r.userId == u else true
       | none => true)
  (db.filter cond).head?

/-- db.ts getUserDetectionHistory: all rows of the user, newest first. -/
def getUserDetectionHistory (db : List DetectionRow) (userId : Nat) :
    List DetectionRow :=
  sortDescBy (fun r => r.createdAt) (db.filter (fun r => r.userId == userId))

/-- Filters accepted by getFilteredDetectionHistory.  The code receives
startDate / endDate but never adds conditions for them; the model keeps the
fields to mirror the signature. -/
structure HistoryFilters where
  verdict : Option Verdict
  fileType : Option String
  startDate : Option Nat
  endDate : Option Nat
  deriving Repr

/-- db.ts getFilteredDetectionHistory: userId always, verdict and fileType
when given (startDate / endDate are ignored by the code), newest first,
LIMIT limit. -/
def getFilteredDetectionHistory (db : List DetectionRow) (userId : Nat)
    (filters : HistoryFilters) (limit : Nat) : List DetectionRow :=
  let cond := fun r =>
    r.userId == userId &&
      (match filters.verdict with
       | some v => r.verdict == v
       | none => true) &&
      (match filters.fileType with
       | some t => r.fileType == t
       | none => true)
  (sortDescBy (fun r => r.createdAt) (db.filter cond)).take limit

/-- db.ts getDetectionResultsForExport: userId always, and id IN ids when a
nonempty id list is given. -/
def getDetectionResultsForExport (db : List DetectionRow) (userId : Nat)
    (ids : Option (List Nat)) : List DetectionRow :=
  let cond := fun r =>
    r.userId == userId &&
      (match ids with
       | some l => if l.length > 0 then l.contains r.id else true
       | none => true)
  sortDescBy (fun r => r.createdAt) (db.filter cond)

/-! ## Detection router (unnamed part 008, first document) -/

/-- report.ai_generated of the image / audio / text upstream responses. -/
structure AiGeneratedReport where
  verdict : Verdict
  aiConfidence : ℚ
  generator : GenScores
  raw : String
  deriving DecidableEq, Repr

/-- report.ai_video of the video upstream response. -/
structure VideoReport where
  isDetected : Bool
  confidence : ℚ
  raw : String
  deriving DecidableEq, Repr

/-- The uniform shape every analyze mutation resolves with. -/
structure AnalyzeResponse where
  success : Bool
  verdict : Verdict
  confidence : String
  detectedGenerator : Option String
  fileUrl : String
  processingTimeMs : Nat
  isCached : Bool
  deriving DecidableEq, Repr

/-- Observable effects of one analyze call, in execution order. -/
inductive Event
  | fetchedUrl (url : String)
  | calledDetectApi (kind : String)
  | storageGetCall (key : String)
  | storagePutCall (key : String)
  | insertedRow (ins : InsertDetectionResult)
  deriving DecidableEq, Repr

/-- Environment of external collaborators.  Err outcomes carry the thrown
message (errors are surfaced through error.message in the code). -/
structure Env where
  hash : ByteBuf → String
  findDup : Nat → String → Except String (Option DetectionRow)
  detectImage : Except String AiGeneratedReport
  detectAudioVoice : Except String AiGeneratedReport
  detectAudioMusic : Except String AiGeneratedReport
  detectVideo : Except String VideoReport
  detectText : Except String AiGeneratedReport
  storagePutUrl : String → Except String String
  storageGetUrl : String → Except String String
  fetchUrl : String → Except String ByteBuf
  insertRow : InsertDetectionResult → Except String Unit
  elapsedMs : Nat
  nowMs : Nat

/-- Outcome of one analyze call: the resolved value or thrown TRPCError,
plus the effect trace. -/
abbrev AnalyzeOutcome := Except TrpcError AnalyzeResponse × List Event

def ALLOWED_IMAGE_TYPES : List String := ["image/jpeg", "image/png", "image/webp"]

def ALLOWED_AUDIO_TYPES : List String :=
  ["audio/mpeg", "audio/wav", "audio/x-m4a", "audio/mp4"]

def ALLOWED_VIDEO_TYPES : List String := ["video/mp4", "video/quicktime", "video/webm"]

def MAX_IMAGE_SIZE : Nat := 10 * 1024 * 1024

def MAX_AUDIO_SIZE : Nat := 50 * 1024 * 1024

def MAX_VIDEO_SIZE : Nat := 100 * 1024 * 1024

def MAX_TEXT_LENGTH : Nat := 50000

/-- The catch block of analyzeImage: a 402 / plan message becomes FORBIDDEN
with an upgrade message, anything else a generic internal error. -/
def imageCatch (msg : String) : TrpcError :=
  if strContains msg "402" || strContains msg "Paid plan" then
    { code := ErrCode.FORBIDDEN
      message := "Image detection is not available with the current API plan. Please upgrade your account." }
  else
    { code := ErrCode.INTERNAL_SERVER_ERROR
      message := "Failed to analyze image. Please try again." }

/-- The catch block of analyzeAudio. -/
def audioCatch (msg : String) : TrpcError :=
  if strContains msg "402" || strContains msg "Paid plan" then
    { code := ErrCode.FORBIDDEN
      message := "Audio detection is not available with the current API plan. Please upgrade your account." }
  else
    { code := ErrCode.INTERNAL_SERVER_ERROR
      message := "Failed to analyze audio. Please try again." }

/-- The catch block of analyzeVideo, which additionally maps a storage
configuration failure to a support message. -/
def videoCatch (msg : String) : TrpcError :=
  if strContains msg "402" || strContains msg "Paid plan" then
    { code := ErrCode.FORBIDDEN
      message := "Video detection is not available with the current API plan. Please upgrade your account." }
  else if strContains msg "Storage configuration missing" then
    { code := ErrCode.INTERNAL_SERVER_ERROR
      message := "Server storage not configured. Please contact support." }
  else
    { code := ErrCode.INTERNAL_SERVER_ERROR
      message := "Failed to analyze video. Please try again." }

/-- The catch block of analyzeText (no plan-restriction remapping). -/
def textCatch (_msg : String) : TrpcError :=
  { code := ErrCode.INTERNAL_SERVER_ERROR
    message := "Failed to analyze text. Please try again." }

/-- The cache-hit branch shared by the analyze operations: re-derive a URL
from the stored key when it is truthy, then synthesize the response from the
stored row with zero processing time.  A storageGet failure propagates to
the enclosing catch. -/
def cachedBranch (env : Env) (dup : DetectionRow)
    (onErr : String → TrpcError) : AnalyzeOutcome :=
  if jsStr dup.s3Key then
    match env.storageGetUrl (dup.s3Key.getD "") with
    | Except.error msg => (Except.error (onErr msg), [Event.storageGetCall (dup.s3Key.getD "")])
    | Except.ok url =>
        (Except.ok
          { success := true
            verdict := dup.verdict
            confidence := dup.confidence
            detectedGenerator := dup.detectedGenerator
            fileUrl := url
            processingTimeMs := 0
            isCached := true }, [Event.storageGetCall (dup.s3Key.getD "")])
  else
    (Except.ok
      { success := true
        verdict := dup.verdict
        confidence := dup.confidence
        detectedGenerator := dup.detectedGenerator
        fileUrl := ""
        processingTimeMs := 0
        isCached := true }, [])

/-- Input of detection.analyzeImage.  fileData carries the decoded bytes of
the base64 payload. -/
structure ImageInput where
  fileName : String
  fileData : ByteBuf
  mimeType : String
  deriving Repr

/-- detection.analyzeImage, translated statement by statement from the
router.  Validation (mime type, then decoded size) happens before the try
block; inside the try block any thrown error reaches the catch, which is
imageCatch. -/
def analyzeImage (env : Env) (userId : Nat) (input : ImageInput) :
    AnalyzeOutcome :=
  if ¬ ALLOWED_IMAGE_TYPES.contains input.mimeType then
    (Except.error
      { code := ErrCode.BAD_REQUEST
        message := "Invalid image type. Allowed: image/jpeg, image/png, image/webp" }, [])
  else
    let fileBuffer := input.fileData
    if fileBuffer.length > MAX_IMAGE_SIZE then
      (Except.error
        { code := ErrCode.BAD_REQUEST
          message := "Image too large. Maximum size: 10MB" }, [])
    else
      let fileHash := env.hash fileBuffer
      match env.findDup userId fileHash with
      | Except.error msg => (Except.error (imageCatch msg), [])
      | Except.ok (some dup) => cachedBranch env dup imageCatch
      | Except.ok none =>
        match env.detectImage with
        | Except.error msg => (Except.error (imageCatch msg), [Event.calledDetectApi "image"])
        | Except.ok report =>
          let processingTime := env.elapsedMs
          let verdict := report.verdict
          let confidence := formatConfidence report.aiConfidence
          let detectedGenerator := getTopDetectedGenerator report.generator
          let s3Key := "detections/" ++ toString userId ++ "/images/"
            ++ toString env.nowMs ++ "-" ++ input.fileName
          match env.storagePutUrl s3Key with
          | Except.error msg =>
              (Except.error (imageCatch msg),
               [Event.calledDetectApi "image", Event.storagePutCall s3Key])
          | Except.ok fileUrl =>
            let ins : InsertDetectionResult :=
              { userId := userId
                fileName := input.fileName
                fileType := "image"
                fileSize := fileBuffer.length
                fileHash := some fileHash
                s3Key := some s3Key
                verdict := verdict
                confidence := confidence
                detectedGenerator := detectedGenerator
                generatorScores := []
                rawResponse := report.raw
                processingTimeMs := processingTime
                isDuplicate := 0 }
            match env.insertRow ins with
            | Except.error msg =>
                (Except.error (imageCatch msg),
                 [Event.calledDetectApi "image", Event.storagePutCall s3Key,
                  Event.insertedRow ins])
            | Except.ok _ =>
                (Except.ok
                  { success := true
                    verdict := verdict
                    confidence := confidence
                    detectedGenerator := detectedGenerator
                    fileUrl := fileUrl
                    processingTimeMs := processingTime
                    isCached := false },
                 [Event.calledDetectApi "image", Event.storagePutCall s3Key,
                  Event.insertedRow ins])

/-- Input of detection.analyzeAudio.  fileData carries the decoded bytes of
the base64 payload when present; a JS empty-string payload is modelled as
absent (both are falsy at the use sites). -/
structure AudioInput where
  fileName : String
  fileData : Option ByteBuf
  fileUrl : Option String
  mimeType : String
  audioType : String
  deriving Repr

/-- Resolve the file buffer for audio / video inputs: a truthy fileUrl is
fetched server-side (a network call, recorded as an event) before anything
else; otherwise a present fileData is used; otherwise the operation throws
BAD_REQUEST.  The fetch happens outside the try block, so a fetch failure
escapes the mutation and tRPC surfaces it as an internal error with the
thrown message. -/
def resolveBuffer (env : Env) (fileUrl : Option String)
    (fileData : Option ByteBuf) : Except TrpcError ByteBuf × List Event :=
  if jsStr fileUrl then
    match env.fetchUrl (fileUrl.getD "") with
    | Except.error msg =>
        (Except.error { code := ErrCode.INTERNAL_SERVER_ERROR, message := msg },
         [Event.fetchedUrl (fileUrl.getD "")])
    | Except.ok buf => (Except.ok buf, [Event.fetchedUrl (fileUrl.getD "")])
  else
    match fileData with
    | some buf => (Except.ok buf, [])
    | none =>
        (Except.error { code := ErrCode.BAD_REQUEST, message := "No file data provided" }, [])

/-- The post-validation body shared by analyzeAudio and analyzeImage style
reports: dedup check, detection call, confidence normalisation, storage put
and row insert, all inside the try block whose catch is onErr. -/
def analyzeReportBody (env : Env) (userId : Nat) (fileName : String)
    (fileType : String) (keyDir : String) (fileBuffer : ByteBuf)
    (detect : Except String AiGeneratedReport) (detectKind : String)
    (onErr : String → TrpcError) (pre : List Event) : AnalyzeOutcome :=
  let fileHash := env.hash fileBuffer
  match env.findDup userId fileHash with
  | Except.error msg => (Except.error (onErr msg), pre)
  | Except.ok (some dup) =>
      let r := cachedBranch env dup onErr
      (r.1, pre ++ r.2)
  | Except.ok none =>
    match detect with
    | Except.error msg => (Except.error (onErr msg), pre ++ [Event.calledDetectApi detectKind])
    | Except.ok report =>
      let processingTime := env.elapsedMs
      let verdict := report.verdict
      let confidence := formatConfidence report.aiConfidence
      let detectedGenerator := getTopDetectedGenerator report.generator
      let s3Key := "detections/" ++ toString userId ++ "/" ++ keyDir ++ "/"
        ++ toString env.nowMs ++ "-" ++ fileName
      match env.storagePutUrl s3Key with
      | Except.error msg =>
          (Except.error (onErr msg),
           pre ++ [Event.calledDetectApi detectKind, Event.storagePutCall s3Key])
      | Except.ok fileUrl =>
        let ins : InsertDetectionResult :=
          { userId := userId
            fileName := fileName
            fileType := fileType
            fileSize := fileBuffer.length
            fileHash := some fileHash
            s3Key := some s3Key
            verdict := verdict
            confidence := confidence
            detectedGenerator := detectedGenerator
            generatorScores := []
            rawResponse := report.raw
            processingTimeMs := processingTime
            isDuplicate := 0 }
        match env.insertRow ins with
        | Except.error msg =>
            (Except.error (onErr msg),
             pre ++ [Event.calledDetectApi detectKind, Event.storagePutCall s3Key,
              Event.insertedRow ins])
        | Except.ok _ =>
            (Except.ok
              { success := true
                verdict := verdict
                confidence := confidence
                detectedGenerator := detectedGenerator
                fileUrl := fileUrl
                processingTimeMs := processingTime
                isCached := false },
             pre ++ [Event.calledDetectApi detectKind, Event.storagePutCall s3Key,
              Event.insertedRow ins])

/-- detection.analyzeAudio: mime check, buffer resolution (URL fetch first
when a URL is supplied), size ceiling, then the shared body with the voice
or music endpoint. -/
def analyzeAudio (env : Env) (userId : Nat) (input : AudioInput) :
    AnalyzeOutcome :=
  if ¬ ALLOWED_AUDIO_TYPES.contains input.mimeType then
    (Except.error
      { code := ErrCode.BAD_REQUEST
        message := "Invalid audio type. Allowed: audio/mpeg, audio/wav, audio/x-m4a, audio/mp4" }, [])
  else
    match resolveBuffer env input.fileUrl input.fileData with
    | (Except.error e, evs) => (Except.error e, evs)
    | (Except.ok fileBuffer, evs) =>
      if fileBuffer.length > MAX_AUDIO_SIZE then
        (Except.error
          { code := ErrCode.BAD_REQUEST
            message := "Audio too large. Maximum size: 50MB" }, evs)
      else
        analyzeReportBody env userId input.fileName "audio" "audio" fileBuffer
          (if input.audioType = "voice" then env.detectAudioVoice else env.detectAudioMusic)
          (if input.audioType = "voice" then "audio-voice" else "audio-music")
          audioCatch evs

/-- Input of detection.analyzeVideo. -/
structure VideoInput where
  fileName : String
  fileData : Option ByteBuf
  fileUrl : Option String
  mimeType : String
  deriving Repr

/-- detection.analyzeVideo: like audio but against the video endpoint; the
verdict derives from ai_video.is_detected, the confidence from
ai_video.confidence through the same round-to-percent formatting, and the
generator is always null. -/
def analyzeVideo (env : Env) (userId : Nat) (input : VideoInput) :
    AnalyzeOutcome :=
  if ¬ ALLOWED_VIDEO_TYPES.contains input.mimeType then
    (Except.error
      { code := ErrCode.BAD_REQUEST
        message := "Invalid video type. Allowed: video/mp4, video/quicktime, video/webm" }, [])
  else
    match resolveBuffer env input.fileUrl input.fileData with
    | (Except.error e, evs) => (Except.error e, evs)
    | (Except.ok fileBuffer, evs) =>
      if fileBuffer.length > MAX_VIDEO_SIZE then
        (Except.error
          { code := ErrCode.BAD_REQUEST
            message := "Video too large. Maximum size: 100MB" }, evs)
      else
        let fileHash := env.hash fileBuffer
        match env.findDup userId fileHash with
        | Except.error msg => (Except.error (videoCatch msg), evs)
        | Except.ok (some dup) =>
            let r := cachedBranch env dup videoCatch
            (r.1, evs ++ r.2)
        | Except.ok none =>
          match env.detectVideo with
          | Except.error msg =>
              (Except.error (videoCatch msg), evs ++ [Event.calledDetectApi "video"])
          | Except.ok report =>
            let processingTime := env.elapsedMs
            let verdict := if report.isDetected then Verdict.ai else Verdict.human
            let confidence := formatConfidence report.confidence
            let s3Key := "detections/" ++ toString userId ++ "/videos/"
              ++ toString env.nowMs ++ "-" ++ input.fileName
            match env.storagePutUrl s3Key with
            | Except.error msg =>
                (Except.error (videoCatch msg),
                 evs ++ [Event.calledDetectApi "video", Event.storagePutCall s3Key])
            | Except.ok fileUrl =>
              let ins : InsertDetectionResult :=
                { userId := userId
                  fileName := input.fileName
                  fileType := "video"
                  fileSize := fileBuffer.length
                  fileHash := some fileHash
                  s3Key := some s3Key
                  verdict := verdict
                  confidence := confidence
                  detectedGenerator := none
                  generatorScores := []
                  rawResponse := report.raw
                  processingTimeMs := processingTime
                  isDuplicate := 0 }
              match env.insertRow ins with
              | Except.error msg =>
                  (Except.error (videoCatch msg),
                   evs ++ [Event.calledDetectApi "video", Event.storagePutCall s3Key,
                    Event.insertedRow ins])
              | Except.ok _ =>
                  (Except.ok
                    { success := true
                      verdict := verdict
                      confidence := confidence
                      detectedGenerator := none
                      fileUrl := fileUrl
                      processingTimeMs := processingTime
                      isCached := false },
                   evs ++ [Event.calledDetectApi "video", Event.storagePutCall s3Key,
                    Event.insertedRow ins])

/-- UTF-8 bytes of a string (Buffer.from(text, utf-8)). -/
def strBytes (s : String) : ByteBuf :=
  s.toUTF8.toList.map (fun b => b.toNat)

/-- detection.analyzeText.  The length bounds are enforced by the zod input
schema (min 1, max MAX_TEXT_LENGTH) before the handler runs; the zod
messages name the bound.  Inside the try block: hash of the UTF-8 bytes,
dedup check, text endpoint, normalisation, row insert with empty s3Key and
no storage write; the catch is textCatch. -/
def analyzeText (env : Env) (userId : Nat) (text : String) : AnalyzeOutcome :=
  if text.length < 1 then
    (Except.error
      { code := ErrCode.BAD_REQUEST
        message := "String must contain at least 1 character(s)" }, [])
  else if text.length > MAX_TEXT_LENGTH then
    (Except.error
      { code := ErrCode.BAD_REQUEST
        message := "String must contain at most 50000 character(s)" }, [])
  else
    let textHash := env.hash (strBytes text)
    match env.findDup userId textHash with
    | Except.error msg => (Except.error (textCatch msg), [])
    | Except.ok (some dup) =>
        (Except.ok
          { success := true
            verdict := dup.verdict
            confidence := dup.confidence
            detectedGenerator := dup.detectedGenerator
            fileUrl := ""
            processingTimeMs := 0
            isCached := true }, [])
    | Except.ok none =>
      match env.detectText with
      | Except.error msg => (Except.error (textCatch msg), [Event.calledDetectApi "text"])
      | Except.ok report =>
        let processingTime := env.elapsedMs
        let verdict := report.verdict
        let confidence := formatConfidence report.aiConfidence
        let detectedGenerator := getTopDetectedGenerator report.generator
        let ins : InsertDetectionResult :=
          { userId := userId
            fileName := "text-input"
            fileType := "text"
            fileSize := text.length
            fileHash := some textHash
            s3Key := some ""
            verdict := verdict
            confidence := confidence
            detectedGenerator := detectedGenerator
            generatorScores := []
            rawResponse := report.raw
            processingTimeMs := processingTime
            isDuplicate := 0 }
        match env.insertRow ins with
        | Except.error msg =>
            (Except.error (textCatch msg),
             [Event.calledDetectApi "text", Event.insertedRow ins])
        | Except.ok _ =>
            (Except.ok
              { success := true
                verdict := verdict
                confidence := confidence
                detectedGenerator := detectedGenerator
                fileUrl := ""
                processingTimeMs := processingTime
                isCached := false },
             [Event.calledDetectApi "text", Event.insertedRow ins])

/-- Result shape of detection.checkDuplicate. -/
structure CheckDuplicateResult where
  isDuplicate : Bool
  cachedResult : Option DetectionRow
  deriving DecidableEq, Repr

/-- detection.checkDuplicate: its own try block swallows a lookup failure
and answers as if no duplicate existed. -/
def checkDuplicate (env : Env) (userId : Nat) (fileHash : String) :
    CheckDuplicateResult :=
  match env.findDup userId fileHash with
  | Except.ok d => { isDuplicate := d.isSome, cachedResult := d }
  | Except.error _ => { isDuplicate := false, cachedResult := none }

/-- An Env whose duplicate lookup is served by an in-memory database list
through db.ts findDuplicateAnalysis. -/
def envOfDb (db : List DetectionRow) (base : Env) : Env :=
  { base with findDup := fun u h => Except.ok (findDuplicateAnalysis db u h) }

/-- detection.getResult: delegates to getDetectionResultById with the
caller id. -/
def getResultProc (db : List DetectionRow) (callerId : Nat) (id : Nat) :
    Option DetectionRow :=
  getDetectionResultById db id (some callerId)

/-- detection.getHistory: delegates to getUserDetectionHistory (the db layer
takes no limit parameter; the router passes one and it is ignored). -/
def getHistoryProc (db : List DetectionRow) (callerId : Nat) (_limit : Nat) :
    List DetectionRow :=
  getUserDetectionHistory db callerId

/-- detection.getFilteredHistory. -/
def getFilteredHistoryProc (db : List DetectionRow) (callerId : Nat)
    (filters : HistoryFilters) (limit : Nat) : List DetectionRow :=
  getFilteredDetectionHistory db callerId filters limit

/-- detection.exportResults, row selection step (the CSV / JSON rendering
both draw from this row list). -/
def exportResultsRows (db : List DetectionRow) (callerId : Nat)
    (ids : List Nat) : List DetectionRow :=
  getDetectionResultsForExport db callerId (some ids)

/-- The insert objects among an effect trace. -/
def insertsOf (evs : List Event) : List InsertDetectionResult :=
  evs.filterMap (fun e =>
    match e with
    | Event.insertedRow ins => some ins
    | _ => none)

/-! ## Object storage adapter (unnamed part 009): storagePut -/

/-- The direct S3 slice of the environment configuration. -/
structure S3Config where
  accessKeyId : Option String
  secretAccessKey : Option String
  endpoint : Option String
  region : Option String
  bucket : Option String
  deriving Repr

/-- What the proxy upload fetch produced: response.ok plus the url field of
its JSON body. -/
structure ProxyResponse where
  ok : Bool
  url : String
  deriving DecidableEq, Repr

/-- Environment of storagePut: the forge proxy configuration, the S3
configuration, and the outcomes of the two network calls (an Except error
models the fetch or send itself throwing). -/
structure StorageEnv where
  forgeApiUrl : Option String
  forgeApiKey : Option String
  s3 : S3Config
  proxyUpload : Except String ProxyResponse
  s3Send : Except String Unit

/-- Effects of one storagePut call, in order. -/
inductive StorageEvent
  | proxyUploadCall (path : String)
  | s3PutObjectCall (bucket : String) (key : String)
  deriving DecidableEq, Repr

/-- Strip trailing slash characters (the replace of a trailing-slash run). -/
def stripTrailingSlashes (s : String) : String :=
  String.mk (s.data.reverse.dropWhile (fun c => c = '/')).reverse

/-- normalizeKey: strip leading slash characters. -/
def normalizeKey (relKey : String) : String :=
  String.mk (relKey.data.dropWhile (fun c => c = '/'))

/-- getStorageConfig: the forge base URL with trailing slashes stripped
(undefined propagates), plus the forge key. -/
def getStorageConfig (env : StorageEnv) : Option String × Option String :=
  (env.forgeApiUrl.map stripTrailingSlashes, env.forgeApiKey)

/-- JS String.prototype.trim: drop leading and trailing whitespace. -/
def jsTrim (s : String) : String :=
  String.mk
    (((s.data.dropWhile Char.isWhitespace).reverse.dropWhile Char.isWhitespace).reverse)

/-- getS3Client succeeds exactly when both trimmed credentials are truthy. -/
def s3ClientUsable (s3 : S3Config) : Bool :=
  jsStr (s3.accessKeyId.map jsTrim) && jsStr (s3.secretAccessKey.map jsTrim)

/-- The object URL the direct-S3 branch constructs: endpoint-based when the
raw endpoint is truthy, the AWS virtual-hosted form otherwise. -/
def s3ObjectUrl (s3 : S3Config) (key : String) : String :=
  if jsStr s3.endpoint then
    stripTrailingSlashes (s3.endpoint.getD "") ++ "/" ++ s3.bucket.getD "" ++ "/" ++ key
  else
    "https://" ++ s3.bucket.getD "" ++ ".s3." ++
      (if jsStr s3.region then s3.region.getD "" else "us-east-1") ++
      ".amazonaws.com/" ++ key

/-- The direct-S3 fallback half of storagePut. -/
def storagePutS3 (env : StorageEnv) (key : String) :
    Except String (String × String) × List StorageEvent :=
  if s3ClientUsable env.s3 && jsStr env.s3.bucket then
    match env.s3Send with
    | Except.error msg =>
        (Except.error msg, [StorageEvent.s3PutObjectCall (env.s3.bucket.getD "") key])
    | Except.ok _ =>
        (Except.ok (key, s3ObjectUrl env.s3 key),
         [StorageEvent.s3PutObjectCall (env.s3.bucket.getD "") key])
  else
    (Except.error "Storage configuration missing: set BUILT_IN_FORGE_API_KEY or S3 credentials",
     [])

/-- storagePut: normalize the key; when the forge base URL and key are both
truthy, POST the multipart form to the proxy upload endpoint first and
return its URL when the response is OK; on a non-OK response (or when the
proxy is unconfigured) fall back to a direct PutObject; when neither
backend is usable, throw the configuration error.  A proxy fetch that
itself throws propagates out of storagePut. -/
def storagePut (env : StorageEnv) (relKey : String) :
    Except String (String × String) × List StorageEvent :=
  let cfg := getStorageConfig env
  let key := normalizeKey relKey
  if jsStr cfg.1 && jsStr cfg.2 then
    match env.proxyUpload with
    | Except.error msg => (Except.error msg, [StorageEvent.proxyUploadCall key])
    | Except.ok resp =>
      if resp.ok then
        (Except.ok (key, resp.url), [StorageEvent.proxyUploadCall key])
      else
        let r := storagePutS3 env key
        (r.1, StorageEvent.proxyUploadCall key :: r.2)
  else
    storagePutS3 env key

/-! ## Multipart upload handler (api/upload.ts, both documents) -/

/-- Environment of the upload handler: the raw env variables and the
outcome of the streamed S3 upload. -/
structure UploadEnv where
  s3AccessKeyId : Option String
  s3SecretAccessKey : Option String
  s3Region : Option String
  s3Endpoint : Option String
  s3Bucket : Option String
  s3PublicBase : Option String
  uploadDone : Except String Unit

/-- The first file part of the multipart body, as busboy reports it. -/
structure FilePart where
  filename : Option String
  mimeType : Option String
  deriving Repr

/-- An incoming request: its HTTP method plus the parsed multipart outcome
(a busboy error, or the first file field if any). -/
structure UploadRequest where
  method : String
  busboyError : Option String
  filePart : Option FilePart
  deriving Repr

/-- Response bodies the handler can produce. -/
inductive RespBody
  | jsonBody (fields : List (String × String))
  | textBody (s : String)
  | emptyBody
  deriving DecidableEq, Repr

/-- A minimal HTTP response: status, headers, body. -/
structure HttpResponse where
  status : Nat
  headers : List (String × String)
  body : RespBody
  deriving DecidableEq, Repr

/-- The three CORS headers both handlers set before anything else. -/
def corsHeaders : List (String × String) :=
  [("Access-Control-Allow-Origin", "*"),
   ("Access-Control-Allow-Methods", "POST, OPTIONS"),
   ("Access-Control-Allow-Headers", "Content-Type")]

/-- mustEnv / getEnv: an undefined or empty variable throws naming the
variable (names only, never values). -/
def mustEnv (v : Option String) (name : String) : Except String String :=
  match v with
  | some s => if s ≠ "" then Except.ok s else Except.error ("Missing env: " ++ name)
  | none => Except.error ("Missing env: " ++ name)

/-- Collapse every whitespace run to a single underscore, the
replace(whitespace-run, underscore) sanitisation. -/
def squashWsAux (inRun : Bool) : List Char → List Char
  | [] => []
  | c :: rest =>
    if c.isWhitespace then
      (if inRun then [] else ['_']) ++ squashWsAux true rest
    else
      c :: squashWsAux false rest

/-- Collapse every whitespace run to a single underscore. -/
def squashWhitespace (l : List Char) : List Char :=
  squashWsAux false l

/-- Sanitize a filename string. -/
def sanitizeName (s : String) : String :=
  String.mk (squashWhitespace s.data)

/-- The try-block body of the first upload handler: env extraction in
source order, then the multipart outcome; resolves with the public file URL
after the storage upload completes. -/
def uploadBody (env : UploadEnv) (now : Nat) (req : UploadRequest) :
    Except String String :=
  match mustEnv env.s3Bucket "S3_BUCKET" with
  | Except.error e => Except.error e
  | Except.ok _bucket =>
    match mustEnv env.s3PublicBase "S3_PUBLIC_BASE" with
    | Except.error e => Except.error e
    | Except.ok publicBase =>
      match mustEnv env.s3AccessKeyId "S3_ACCESS_KEY_ID" with
      | Except.error e => Except.error e
      | Except.ok _ =>
        match mustEnv env.s3SecretAccessKey "S3_SECRET_ACCESS_KEY" with
        | Except.error e => Except.error e
        | Except.ok _ =>
          match req.busboyError with
          | some e => Except.error e
          | none =>
            match req.filePart with
            | none =>
              Except.error "No file field provided (expected form field \x27file\x27)"
            | some fp =>
              let filename := sanitizeName
                (if jsStr fp.filename then fp.filename.getD "" else "file")
              let key := "uploads/" ++ toString now ++ "-" ++ filename
              match env.uploadDone with
              | Except.error e => Except.error e
              | Except.ok _ => Except.ok (stripTrailingSlashes publicBase ++ "/" ++ key)

/-- The first upload handler document: CORS headers always; OPTIONS meets a
204 empty response; a non-POST method a 405 JSON body; every failure of the
body is caught and answered as a 500 structured JSON error object. -/
def uploadHandler (env : UploadEnv) (now : Nat) (req : UploadRequest) :
    HttpResponse :=
  if req.method = "OPTIONS" then
    { status := 204, headers := corsHeaders, body := RespBody.emptyBody }
  else if req.method ≠ "POST" then
    { status := 405
      headers := corsHeaders ++ [("Content-Type", "application/json; charset=utf-8")]
      body := RespBody.jsonBody [("error", "Method Not Allowed")] }
  else
    match uploadBody env now req with
    | Except.ok fileUrl =>
        { status := 200
          headers := corsHeaders ++ [("Content-Type", "application/json; charset=utf-8")]
          body := RespBody.jsonBody [("fileUrl", fileUrl)] }
    | Except.error msg =>
        { status := 500
          headers := corsHeaders ++ [("Content-Type", "application/json; charset=utf-8")]
          body := RespBody.jsonBody [("error", "UPLOAD_FAILED"), ("message", msg)] }

/-- The try-block body of the second upload handler document; it differs in
the no-file message, in sanitising the whole key, and in using the raw
filename fallback. -/
def uploadBodyV2 (env : UploadEnv) (now : Nat) (req : UploadRequest) :
    Except String String :=
  match mustEnv env.s3Bucket "S3_BUCKET" with
  | Except.error e => Except.error e
  | Except.ok _bucket =>
    match mustEnv env.s3PublicBase "S3_PUBLIC_BASE" with
    | Except.error e => Except.error e
    | Except.ok publicBase =>
      match mustEnv env.s3AccessKeyId "S3_ACCESS_KEY_ID" with
      | Except.error e => Except.error e
      | Except.ok _ =>
        match mustEnv env.s3SecretAccessKey "S3_SECRET_ACCESS_KEY" with
        | Except.error e => Except.error e
        | Except.ok _ =>
          match req.busboyError with
          | some e => Except.error e
          | none =>
            match req.filePart with
            | none => Except.error "No file field provided"
            | some fp =>
              let filename := if jsStr fp.filename then fp.filename.getD "" else "file"
              let key := sanitizeName ("uploads/" ++ toString now ++ "-" ++ filename)
              match env.uploadDone with
              | Except.error e => Except.error e
              | Except.ok _ => Except.ok (stripTrailingSlashes publicBase ++ "/" ++ key)

/-- The second upload handler document: same method handling, but its catch
answers 500 with a fixed plain-text body, not JSON. -/
def uploadHandlerV2 (env : UploadEnv) (now : Nat) (req : UploadRequest) :
    HttpResponse :=
  if req.method = "OPTIONS" then
    { status := 204, headers := corsHeaders, body := RespBody.emptyBody }
  else if req.method ≠ "POST" then
    { status := 405, headers := corsHeaders
      body := RespBody.jsonBody [("error", "Method Not Allowed")] }
  else
    match uploadBodyV2 env now req with
    | Except.ok fileUrl =>
        { status := 200, headers := corsHeaders
          body := RespBody.jsonBody [("fileUrl", fileUrl)] }
    | Except.error _ =>
        { status := 500, headers := corsHeaders
          body := RespBody.textBody "A server error has occurred" }

/-- Is a response body a structured JSON object? -/
def RespBody.isJson : RespBody → Bool
  | RespBody.jsonBody _ => true
  | _ => false

/-- The fixed failure messages the first upload handler itself can produce:
env-variable names and the no-file message; no credential value appears in
any of them. -/
def uploadFixedMessages : List String :=
  ["Missing env: S3_BUCKET", "Missing env: S3_PUBLIC_BASE",
   "Missing env: S3_ACCESS_KEY_ID", "Missing env: S3_SECRET_ACCESS_KEY",
   "No file field provided (expected form field \x27file\x27)"]

/-! ## Specification-side helpers and concrete test environments -/

/-- The first entry of the list attaining the maximal score (a later entry
replaces the current best only when strictly greater).  This is the
specification-side argmax used to characterise getTopDetectedGenerator. -/
def firstArgmax : GenScores → Option (String × ℚ)
  | [] => none
  | p :: ps =>
    match firstArgmax ps with
    | none => some p
    | some q => if q.2 > p.2 then some q else some p

/-- A concrete environment in which every collaborator succeeds; the image
endpoint answers with confidence 0.953 and the generator map of the spec
example. -/
def okEnv : Env :=
  { hash := fun _ => "deadbeef"
    findDup := fun _ _ => Except.ok none
    detectImage := Except.ok
      { verdict := Verdict.ai
        aiConfidence := 953/1000
        generator := [("midjourney", 95/100), ("dall_e", 85/100)]
        raw := "rawImage" }
    detectAudioVoice := Except.ok
      { verdict := Verdict.human, aiConfidence := 1/10, generator := [], raw := "rawVoice" }
    detectAudioMusic := Except.ok
      { verdict := Verdict.human, aiConfidence := 2/10, generator := [], raw := "rawMusic" }
    detectVideo := Except.ok
      { isDetected := true, confidence := 88/100, raw := "rawVideo" }
    detectText := Except.ok
      { verdict := Verdict.ai, aiConfidence := 1/2, generator := [], raw := "rawText" }
    storagePutUrl := fun _ => Except.ok "https://example.com/put"
    storageGetUrl := fun _ => Except.ok "https://example.com/get"
    fetchUrl := fun _ => Except.ok [1, 2, 3]
    insertRow := fun _ => Except.ok ()
    elapsedMs := 123
    nowMs := 1000 }

/-- okEnv with a failing duplicate lookup. -/
def failDupEnv : Env :=
  { okEnv with findDup := fun _ _ => Except.error "Database connection lost" }

/-- A buffer one byte over the audio ceiling. -/
def overAudioBuf : ByteBuf := List.replicate (MAX_AUDIO_SIZE + 1) 0

/-- okEnv whose URL fetch serves the over-ceiling audio buffer. -/
def fetchBigEnv : Env :=
  { okEnv with fetchUrl := fun _ => Except.ok overAudioBuf }

/-- A buffer one byte over the video ceiling. -/
def overVideoBuf : ByteBuf := List.replicate (MAX_VIDEO_SIZE + 1) 0

/-- okEnv whose URL fetch serves the over-ceiling video buffer. -/
def fetchBigVideoEnv : Env :=
  { okEnv with fetchUrl := fun _ => Except.ok overVideoBuf }

/-- An upload environment with no configuration at all. -/
def emptyUploadEnv : UploadEnv :=
  { s3AccessKeyId := none
    s3SecretAccessKey := none
    s3Region := none
    s3Endpoint := none
    s3Bucket := none
    s3PublicBase := none
    uploadDone := Except.ok () }

/-- A fully configured upload environment whose streamed upload succeeds. -/
def okUploadEnv : UploadEnv :=
  { s3AccessKeyId := some "AKIA_TEST"
    s3SecretAccessKey := some "SECRET_TEST"
    s3Region := some "us-east-1"
    s3Endpoint := some "https://s3.example.com"
    s3Bucket := some "bucket"
    s3PublicBase := some "https://cdn.example.com"
    uploadDone := Except.ok () }

/-- A sample stored row for the dedup claims. -/
def sampleRow : DetectionRow :=
  { id := 7
    userId := 1
    fileName := "a.png"
    fileType := "image"
    fileSize := 3
    fileHash := some "deadbeef"
    s3Key := some "detections/1/images/1-a.png"
    verdict := Verdict.ai
    confidence := "0.9500"
    detectedGenerator := some "midjourney"
    generatorScores := []
    rawResponse := "rawImage"
    processingTimeMs := 222
    isDuplicate := 0
    duplicateOfId := none
    createdAt := 10 }

/-- A storage environment where the proxy is configured and answers OK. -/
def proxyOkStorageEnv : StorageEnv :=
  { forgeApiUrl := some "https://forge.example.com/"
    forgeApiKey := some "forge-key"
    s3 := { accessKeyId := some "AK", secretAccessKey := some "SK",
            endpoint := some "https://s3.example.com", region := some "r1",
            bucket := some "bkt" }
    proxyUpload := Except.ok { ok := true, url := "https://forge.example.com/files/x" }
    s3Send := Except.ok () }

/-! # Theorems -/

/-- The strict-improvement fold of getTopDetectedGenerator, started from any
accumulator, keeps the accumulator unless the first maximum of the list
strictly beats it. -/
theorem foldlTop_eq (l : GenScores) :
    ∀ acc : String × ℚ,
      l.foldl (fun a p => if p.2 > a.2 then p else a) acc =
        (firstArgmax l).elim acc (fun q => if q.2 > acc.2 then q else acc) := by
  induction l with
  | nil => intro acc; rfl
  | cons p ps ih =>
    intro acc
    simp only [List.foldl_cons, firstArgmax]
    rw [ih]
    cases hfa : firstArgmax ps with
    | none => simp only [Option.elim_none, Option.elim_some]
    | some q =>
      simp only [Option.elim_some]
      by_cases h2 : q.2 > p.2
      · rw [if_pos h2]
        simp only [Option.elim_some]
        by_cases h1 : p.2 > acc.2
        · rw [if_pos h1, if_pos h2,
            if_pos (show q.2 > acc.2 from lt_trans h1 h2)]
        · rw [if_neg h1]
      · rw [if_neg h2]
        simp only [Option.elim_some]
        by_cases h1 : p.2 > acc.2
        · rw [if_pos h1, if_neg h2]
        · have hq : ¬ q.2 > acc.2 := fun hc =>
            h1 (lt_of_lt_of_le hc (le_of_not_lt h2))
          rw [if_neg h1, if_neg hq]

/-- firstArgmax misses exactly on the empty list. -/
theorem firstArgmax_eq_none (l : GenScores) : firstArgmax l = none ↔ l = [] := by
  cases l with
  | nil => simp [firstArgmax]
  | cons p ps =>
    simp only [firstArgmax]
    cases hfa : firstArgmax ps with
    | none => simp
    | some q => by_cases h : q.2 > p.2 <;> simp [h]

/-- firstArgmax returns an entry of the list. -/
theorem firstArgmax_mem (l : GenScores) :
    ∀ q, firstArgmax l = some q → q ∈ l := by
  induction l with
  | nil => intro q h; simp [firstArgmax] at h
  | cons p ps ih =>
    intro q h
    simp only [firstArgmax] at h
    cases hfa : firstArgmax ps with
    | none =>
      rw [hfa] at h
      dsimp only at h
      simp only [Option.some.injEq] at h
      subst h
      exact List.mem_cons_self _ _
    | some q0 =>
      rw [hfa] at h
      dsimp only at h
      by_cases h2 : q0.2 > p.2
      · rw [if_pos h2] at h
        simp only [Option.some.injEq] at h
        subst h
        exact List.mem_cons_of_mem _ (ih q0 hfa)
      · rw [if_neg h2] at h
        simp only [Option.some.injEq] at h
        subst h
        exact List.mem_cons_self _ _

/-- firstArgmax returns a maximal entry. -/
theorem firstArgmax_isMax (l : GenScores) :
    ∀ q, firstArgmax l = some q → ∀ p ∈ l, p.2 ≤ q.2 := by
  induction l with
  | nil => intro q h; simp [firstArgmax] at h
  | cons p ps ih =>
    intro q hq r hr
    simp only [firstArgmax] at hq
    cases hfa : firstArgmax ps with
    | none =>
      rw [hfa] at hq
      dsimp only at hq
      simp only [Option.some.injEq] at hq
      subst hq
      rcases List.mem_cons.mp hr with h | h
      · subst h; exact le_refl _
      · rw [(firstArgmax_eq_none ps).mp hfa] at h; simp at h
    | some q0 =>
      rw [hfa] at hq
      dsimp only at hq
      rcases List.mem_cons.mp hr with h | h
      · subst h
        by_cases h2 : q0.2 > r.2
        · rw [if_pos h2] at hq
          simp only [Option.some.injEq] at hq
          subst hq
          exact le_of_lt h2
        · rw [if_neg h2] at hq
          simp only [Option.some.injEq] at hq
          subst hq
          exact le_refl _
      · have hle := ih q0 hfa r h
        by_cases h2 : q0.2 > p.2
        · rw [if_pos h2] at hq
          simp only [Option.some.injEq] at hq
          subst hq
          exact hle
        · rw [if_neg h2] at hq
          simp only [Option.some.injEq] at hq
          subst hq
          exact le_trans hle (le_of_not_lt h2)

/-- Claim C5, counterexample: the claim says the result is null exactly when
the map is empty and that every nonempty map yields its argmax label, but
the nonempty map with the single entry foo at score 0 yields null, because
the scan starts from the sentinel score 0 and only a strictly greater score
displaces it. -/
theorem getTopDetectedGenerator_zero_counterexample :
    getTopDetectedGenerator [("foo", (0 : ℚ))] = none ∧
      ([("foo", (0 : ℚ))] : GenScores) ≠ [] := by
  constructor
  · unfold getTopDetectedGenerator
    norm_num
  · simp

/-- Claim C5, amended: over maps with nonempty labels,
getTopDetectedGenerator returns null exactly when the map is empty or no
entry has a strictly positive score; and whenever the first-encountered
maximal entry has positive score it returns its label (so ties are broken
in favour of the first-encountered entry). -/
theorem getTopDetectedGenerator_characterisation (scores : GenScores)
    (hlbl : ∀ p ∈ scores, p.1 ≠ "") :
    (getTopDetectedGenerator scores = none ↔ ∀ p ∈ scores, p.2 ≤ 0) ∧
    (∀ q, firstArgmax scores = some q → 0 < q.2 →
        getTopDetectedGenerator scores = some q.1) := by
  unfold getTopDetectedGenerator
  cases hsc : scores with
  | nil =>
    subst hsc
    constructor
    · simp
    · intro q hq
      simp [firstArgmax] at hq
  | cons p ps =>
    subst hsc
    simp only [List.isEmpty_cons, Bool.false_eq_true, if_false]
    rw [foldlTop_eq]
    cases hfa : firstArgmax (p :: ps) with
    | none =>
      rw [firstArgmax_eq_none] at hfa
      exact absurd hfa (by simp)
    | some q0 =>
      simp only [Option.elim_some]
      have hq0mem := firstArgmax_mem _ q0 hfa
      have hmax := firstArgmax_isMax _ q0 hfa
      by_cases hpos : (0 : ℚ) < q0.2
      · rw [if_pos (show q0.2 > ((""), (0 : ℚ)).2 from hpos)]
        rw [if_neg (hlbl q0 hq0mem)]
        constructor
        · constructor
          · intro h; simp at h
          · intro hall
            exact absurd (hall q0 hq0mem) (not_le.mpr hpos)
        · intro q hq _
          simp only [Option.some.injEq] at hq
          subst hq
          rfl
      · rw [if_neg (show ¬ q0.2 > ((""), (0 : ℚ)).2 from hpos)]
        rw [if_pos (show ((""), (0 : ℚ)).1 = "" from rfl)]
        constructor
        · constructor
          · intro _ r hr
            exact le_trans (hmax r hr) (le_of_not_lt hpos)
          · intro _; rfl
        · intro q hq hqpos
          simp only [Option.some.injEq] at hq
          subst hq
          exact absurd hqpos hpos

/-- Claim C5, witness for the amended theorem at the spec example map. -/
theorem getTopDetectedGenerator_characterisation_witness :
    getTopDetectedGenerator [("midjourney", (95 : ℚ)/100), ("dall_e", (85 : ℚ)/100)]
      = some "midjourney" :=
  (getTopDetectedGenerator_characterisation
      [("midjourney", (95 : ℚ)/100), ("dall_e", (85 : ℚ)/100)] (by simp)).2
    ("midjourney", (95 : ℚ)/100)
    (by norm_num [firstArgmax])
    (by norm_num)

/-- Evaluate toFixed4 once its floor argument is known. -/
theorem toFixed4_of_floor (q : ℚ) (n : Nat) (h : ⌊q * 10000 + 1/2⌋ = (n : ℤ)) :
    toFixed4 q = toString (n / 10000) ++ "." ++ pad4 (n % 10000) := by
  unfold toFixed4
  rw [h]
  simp

/-- Reduce formatConfidence once the rounded percent is known. -/
theorem formatConfidence_of_round (c : ℚ) (p : Nat)
    (h : ⌊c * 100 + 1/2⌋ = (p : ℤ)) :
    formatConfidence c = toFixed4 ((p : ℚ) / 100) := by
  unfold formatConfidence jsRound
  rw [h]
  norm_num

/-- The code formats an upstream confidence of 0.953 as "0.9500". -/
theorem formatConfidence_0953 : formatConfidence (953/1000) = "0.9500" := by
  rw [formatConfidence_of_round (953/1000) 95
    (by rw [Int.floor_eq_iff] <;> norm_num)]
  rw [toFixed4_of_floor (((95 : ℕ) : ℚ)/100) 9500
    (by push_cast; rw [Int.floor_eq_iff] <;> norm_num)]
  decide

/-- Plain 4-decimal formatting of 0.953 is "0.9530". -/
theorem toFixed4_0953 : toFixed4 (953/1000) = "0.9530" := by
  rw [toFixed4_of_floor ((953 : ℚ)/1000) 9530
    (by rw [Int.floor_eq_iff] <;> norm_num)]
  decide

/-- The spec example generator map evaluates to midjourney. -/
theorem topGen_example :
    getTopDetectedGenerator [("midjourney", (95 : ℚ)/100), ("dall_e", (85 : ℚ)/100)]
      = some "midjourney" := by
  unfold getTopDetectedGenerator
  norm_num
  intro h
  exact absurd h (by decide)

/-- Claim C1, counterexample: on a successful non-cached image detection
whose upstream confidence is 0.953, the returned confidence is "0.9500",
not the plain 4-decimal formatting "0.9530" the claim requires, because the
code first rounds to a whole percent. -/
theorem confidence_formatting_counterexample :
    (analyzeImage okEnv 1
        { fileName := "a.png", fileData := [1, 2, 3], mimeType := "image/png" }).1
      = Except.ok
        { success := true
          verdict := Verdict.ai
          confidence := formatConfidence (953/1000)
          detectedGenerator :=
            getTopDetectedGenerator [("midjourney", (95 : ℚ)/100), ("dall_e", (85 : ℚ)/100)]
          fileUrl := "https://example.com/put"
          processingTimeMs := 123
          isCached := false } ∧
    formatConfidence (953/1000) = "0.9500" ∧
    toFixed4 (953/1000) = "0.9530" ∧
    ("0.9500" : String) ≠ "0.9530" :=
  ⟨rfl, formatConfidence_0953, toFixed4_0953, by decide⟩

/-- Claim C1, amended: for every successful non-cached detection in each of
the four analyze operations, the reported confidence is the upstream
confidence rounded to the nearest whole percent and then fixed to 4 decimal
places (Math.round(c * 100) / 100 followed by toFixed(4)); this agrees with
plain 4-decimal formatting exactly on whole-percent confidences (and, per
the counterexample, differs on 0.953, which is reported "0.9500"). -/
theorem confidence_formatting_amended :
    (∀ (env : Env) (u : Nat) (input : ImageInput) (rep : AiGeneratedReport)
        (r : AnalyzeResponse),
        env.detectImage = Except.ok rep →
        (analyzeImage env u input).1 = Except.ok r →
        r.isCached = false →
        r.confidence = formatConfidence rep.aiConfidence) ∧
    (∀ (env : Env) (u : Nat) (input : AudioInput) (rep : AiGeneratedReport)
        (r : AnalyzeResponse),
        (if input.audioType = "voice" then env.detectAudioVoice
          else env.detectAudioMusic) = Except.ok rep →
        (analyzeAudio env u input).1 = Except.ok r →
        r.isCached = false →
        r.confidence = formatConfidence rep.aiConfidence) ∧
    (∀ (env : Env) (u : Nat) (input : VideoInput) (rep : VideoReport)
        (r : AnalyzeResponse),
        env.detectVideo = Except.ok rep →
        (analyzeVideo env u input).1 = Except.ok r →
        r.isCached = false →
        r.confidence = formatConfidence rep.confidence) ∧
    (∀ (env : Env) (u : Nat) (t : String) (rep : AiGeneratedReport)
        (r : AnalyzeResponse),
        env.detectText = Except.ok rep →
        (analyzeText env u t).1 = Except.ok r →
        r.isCached = false →
        r.confidence = formatConfidence rep.aiConfidence) ∧
    (∀ k : Nat, formatConfidence ((k : ℚ) / 100) = toFixed4 ((k : ℚ) / 100)) := by
  refine ⟨?_, ?_, ?_, ?_, ?_⟩
  · intro env u input rep r hdet hres hcached
    unfold analyzeImage at hres
    rw [hdet] at hres
    unfold cachedBranch at hres
    dsimp only at hres
    iterate 8 (all_goals (try split at hres))
    all_goals try dsimp only at hres
    all_goals
      first
      | (simp at hres; done)
      | (simp only [Except.ok.injEq] at hres
         subst hres
         first
         | rfl
         | simp at hcached)
  · intro env u input rep r hdet hres hcached
    unfold analyzeAudio at hres
    rw [hdet] at hres
    unfold analyzeReportBody at hres
    unfold cachedBranch at hres
    dsimp only at hres
    iterate 10 (all_goals (try split at hres))
    all_goals try dsimp only at hres
    all_goals
      first
      | (simp at hres; done)
      | (simp only [Except.ok.injEq] at hres
         subst hres
         first
         | rfl
         | simp at hcached)
  · intro env u input rep r hdet hres hcached
    unfold analyzeVideo at hres
    rw [hdet] at hres
    unfold cachedBranch at hres
    dsimp only at hres
    iterate 10 (all_goals (try split at hres))
    all_goals try dsimp only at hres
    all_goals
      first
      | (simp at hres; done)
      | (simp only [Except.ok.injEq] at hres
         subst hres
         first
         | rfl
         | simp at hcached)
  · intro env u t rep r hdet hres hcached
    unfold analyzeText at hres
    rw [hdet] at hres
    dsimp only at hres
    iterate 8 (all_goals (try split at hres))
    all_goals try dsimp only at hres
    all_goals
      first
      | (simp at hres; done)
      | (simp only [Except.ok.injEq] at hres
         subst hres
         first
         | rfl
         | simp at hcached)
  · intro k
    unfold formatConfidence jsRound
    have hfl : (⌊((k : ℚ) / 100) * 100 + 1/2⌋ : ℤ) = (k : ℤ) := by
      have h1 : ((k : ℚ) / 100) * 100 = (k : ℚ) := by
        field_simp
      rw [h1, Int.floor_eq_iff]
      constructor
      · push_cast
        linarith
      · push_cast
        linarith
    rw [hfl]
    norm_num

/-- Claim C1, witness for the amended theorem: the concrete successful
non-cached image detection of the counterexample environment. -/
theorem confidence_formatting_amended_witness :
    ({ success := true
       verdict := Verdict.ai
       confidence := formatConfidence (953/1000)
       detectedGenerator :=
         getTopDetectedGenerator [("midjourney", (95 : ℚ)/100), ("dall_e", (85 : ℚ)/100)]
       fileUrl := "https://example.com/put"
       processingTimeMs := 123
       isCached := false } : AnalyzeResponse).confidence
      = formatConfidence (953/1000) :=
  confidence_formatting_amended.1 okEnv 1
    { fileName := "a.png", fileData := [1, 2, 3], mimeType := "image/png" }
    { verdict := Verdict.ai
      aiConfidence := 953/1000
      generator := [("midjourney", 95/100), ("dall_e", 85/100)]
      raw := "rawImage" }
    _ rfl rfl rfl

/-- Claim C2, counterexample: with a failing duplicate lookup, analyzeImage
does not treat the failure as no-duplicate-found and does not proceed with
an uncached detection; it fails with the generic internal error of its
catch block, and its effect trace is empty (no detection call, no storage
write, no insert). -/
theorem dedup_failure_counterexample :
    analyzeImage failDupEnv 1
        { fileName := "a.png", fileData := [1, 2, 3], mimeType := "image/png" }
      = (Except.error
          { code := ErrCode.INTERNAL_SERVER_ERROR
            message := "Failed to analyze image. Please try again." }, []) := rfl

/-- Claim C2, amended: only the checkDuplicate procedure treats a failed
duplicate lookup as no duplicate found; in each analyze operation the
lookup failure is caught by the per-operation catch block and surfaced as
the remapped error of that block, the operation does not proceed uncached, and
no detection call, storage write or insert is performed. -/
theorem dedup_failure_amended :
    ∀ (env : Env) (u : Nat),
      (∀ h msg, env.findDup u h = Except.error msg →
        checkDuplicate env u h = { isDuplicate := false, cachedResult := none }) ∧
      (∀ (input : ImageInput) (msg : String),
        ALLOWED_IMAGE_TYPES.contains input.mimeType = true →
        ¬ input.fileData.length > MAX_IMAGE_SIZE →
        env.findDup u (env.hash input.fileData) = Except.error msg →
        analyzeImage env u input = (Except.error (imageCatch msg), [])) ∧
      (∀ (input : AudioInput) (buf : ByteBuf) (msg : String),
        ALLOWED_AUDIO_TYPES.contains input.mimeType = true →
        input.fileUrl = none →
        input.fileData = some buf →
        ¬ buf.length > MAX_AUDIO_SIZE →
        env.findDup u (env.hash buf) = Except.error msg →
        analyzeAudio env u input = (Except.error (audioCatch msg), [])) ∧
      (∀ (input : VideoInput) (buf : ByteBuf) (msg : String),
        ALLOWED_VIDEO_TYPES.contains input.mimeType = true →
        input.fileUrl = none →
        input.fileData = some buf →
        ¬ buf.length > MAX_VIDEO_SIZE →
        env.findDup u (env.hash buf) = Except.error msg →
        analyzeVideo env u input = (Except.error (videoCatch msg), [])) ∧
      (∀ (t : String) (msg : String),
        1 ≤ t.length → t.length ≤ MAX_TEXT_LENGTH →
        env.findDup u (env.hash (strBytes t)) = Except.error msg →
        analyzeText env u t = (Except.error (textCatch msg), [])) := by
  intro env u
  refine ⟨?_, ?_, ?_, ?_, ?_⟩
  · intro h msg hfd
    unfold checkDuplicate
    rw [hfd]
  · intro input msg hmime hsize hfd
    unfold analyzeImage
    rw [if_neg (not_not_intro hmime), if_neg hsize]
    dsimp only
    rw [hfd]
  · intro input buf msg hmime hurl hdata hsize hfd
    have hrb : resolveBuffer env input.fileUrl input.fileData = (Except.ok buf, []) := by
      rw [hurl, hdata]
      rfl
    unfold analyzeAudio
    rw [if_neg (not_not_intro hmime), hrb]
    dsimp only
    rw [if_neg hsize]
    unfold analyzeReportBody
    dsimp only
    rw [hfd]
  · intro input buf msg hmime hurl hdata hsize hfd
    have hrb : resolveBuffer env input.fileUrl input.fileData = (Except.ok buf, []) := by
      rw [hurl, hdata]
      rfl
    unfold analyzeVideo
    rw [if_neg (not_not_intro hmime), hrb]
    dsimp only
    rw [if_neg hsize]
    try dsimp only
    rw [hfd]
  · intro t msg hlen1 hlen2 hfd
    unfold analyzeText
    rw [if_neg (Nat.not_lt.mpr hlen1), if_neg (Nat.not_lt.mpr hlen2)]
    dsimp only
    rw [hfd]

/-- Claim C2, witness for the amended theorem at the failing-lookup
environment. -/
theorem dedup_failure_amended_witness :
    checkDuplicate failDupEnv 1 "deadbeef"
        = { isDuplicate := false, cachedResult := none } ∧
      analyzeImage failDupEnv 1
          { fileName := "a.png", fileData := [1, 2, 3], mimeType := "image/png" }
        = (Except.error (imageCatch "Database connection lost"), []) :=
  ⟨(dedup_failure_amended failDupEnv 1).1 "deadbeef" "Database connection lost" rfl,
   (dedup_failure_amended failDupEnv 1).2.1
     { fileName := "a.png", fileData := [1, 2, 3], mimeType := "image/png" }
     "Database connection lost" rfl (by decide) rfl⟩

/-- The head of a list, when present, is a member. -/
theorem headMem {α : Type} {l : List α} {a : α} (h : l.head? = some a) : a ∈ l := by
  cases l with
  | nil => simp at h
  | cons x xs =>
    simp only [List.head?_cons, Option.some.injEq] at h
    subst h
    exact List.mem_cons_self _ _

/-- A duplicate-lookup hit satisfies the lookup predicate: it belongs to
the calling user and carries the looked-up hash. -/
theorem findDuplicateAnalysis_keying (db : List DetectionRow) (u : Nat)
    (h : String) (row : DetectionRow)
    (hdup : findDuplicateAnalysis db u h = some row) :
    row.userId = u ∧ row.fileHash = some h := by
  unfold findDuplicateAnalysis at hdup
  have hmem := headMem hdup
  have hp := List.of_mem_filter hmem
  simp only [Bool.and_eq_true, beq_iff_eq] at hp
  exact hp

/-- When no row of the database carries the hash for this user, the lookup
misses. -/
theorem findDuplicateAnalysis_none (db : List DetectionRow) (u : Nat)
    (h : String)
    (hno : ∀ r ∈ db, r.fileHash = some h → r.userId ≠ u) :
    findDuplicateAnalysis db u h = none := by
  unfold findDuplicateAnalysis
  have hf : db.filter (fun r => r.userId == u && r.fileHash == some h) = [] := by
    rw [List.filter_eq_nil]
    intro r hr
    simp only [Bool.and_eq_true, beq_iff_eq, not_and]
    intro hu hh
    exact hno r hr hh hu
  rw [hf]
  rfl

/-- Claim C3: a duplicate hit for the same user returns the stored verdict,
confidence and generator with isCached true and zero processing time,
performing at most a signed-URL derivation (no detection call, no storage
write, no insert); the lookup is keyed by user id and file hash; and a user
none of whose rows carry the hash gets a non-cached result. -/
theorem dedup_cache_semantics :
    ∀ (db : List DetectionRow) (base : Env) (u : Nat) (h : String),
      (∀ row, findDuplicateAnalysis db u h = some row →
        row.userId = u ∧ row.fileHash = some h) ∧
      (∀ (input : ImageInput) (row : DetectionRow) (geturl : String → String),
        ALLOWED_IMAGE_TYPES.contains input.mimeType = true →
        ¬ input.fileData.length > MAX_IMAGE_SIZE →
        (∀ k, base.storageGetUrl k = Except.ok (geturl k)) →
        findDuplicateAnalysis db u (base.hash input.fileData) = some row →
        analyzeImage (envOfDb db base) u input
          = (Except.ok
              { success := true
                verdict := row.verdict
                confidence := row.confidence
                detectedGenerator := row.detectedGenerator
                fileUrl := if jsStr row.s3Key then geturl (row.s3Key.getD "") else ""
                processingTimeMs := 0
                isCached := true },
             if jsStr row.s3Key then [Event.storageGetCall (row.s3Key.getD "")] else [])) ∧
      (∀ (input : ImageInput) (rep : AiGeneratedReport) (puturl : String → String),
        ALLOWED_IMAGE_TYPES.contains input.mimeType = true →
        ¬ input.fileData.length > MAX_IMAGE_SIZE →
        (∀ r ∈ db, r.fileHash = some (base.hash input.fileData) → r.userId ≠ u) →
        base.detectImage = Except.ok rep →
        (∀ k, base.storagePutUrl k = Except.ok (puturl k)) →
        (∀ i, base.insertRow i = Except.ok ()) →
        ((analyzeImage (envOfDb db base) u input).1).map (fun r => r.isCached)
          = Except.ok false) := by
  intro db base u h
  refine ⟨?_, ?_, ?_⟩
  · intro row hdup
    exact findDuplicateAnalysis_keying db u h row hdup
  · intro input row geturl hmime hsize hget hdup
    unfold analyzeImage envOfDb
    dsimp only
    rw [if_neg (not_not_intro hmime), if_neg hsize, hdup]
    unfold cachedBranch
    dsimp only
    by_cases hkey : jsStr row.s3Key = true
    · rw [hget]
      simp [hkey]
    · rw [Bool.not_eq_true] at hkey
      simp [hkey]
  · intro input rep puturl hmime hsize hno hdet hput hins
    unfold analyzeImage envOfDb
    dsimp only
    rw [if_neg (not_not_intro hmime), if_neg hsize,
      findDuplicateAnalysis_none db u (base.hash input.fileData) hno]
    dsimp only
    rw [hdet]
    dsimp only
    rw [hput]
    dsimp only
    rw [hins]
    rfl

/-- Claim C3, witness: a one-row database for user 1; the same user hits
the cache, and user 2 (owning no row with the hash) misses and gets a
non-cached result. -/
theorem dedup_cache_semantics_witness :
    (sampleRow.userId = 1 ∧ sampleRow.fileHash = some "deadbeef") ∧
    analyzeImage (envOfDb [sampleRow] okEnv) 1
        { fileName := "b.png", fileData := [1, 2, 3], mimeType := "image/png" }
      = (Except.ok
          { success := true
            verdict := Verdict.ai
            confidence := "0.9500"
            detectedGenerator := some "midjourney"
            fileUrl := "https://example.com/get"
            processingTimeMs := 0
            isCached := true },
         [Event.storageGetCall "detections/1/images/1-a.png"]) ∧
    ((analyzeImage (envOfDb [sampleRow] okEnv) 2
        { fileName := "b.png", fileData := [1, 2, 3], mimeType := "image/png" }).1).map
        (fun r => r.isCached)
      = Except.ok false := by
  refine ⟨(dedup_cache_semantics [sampleRow] okEnv 1 "deadbeef").1 sampleRow rfl, ?_, ?_⟩
  · have h2 := (dedup_cache_semantics [sampleRow] okEnv 1 "deadbeef").2.1
      { fileName := "b.png", fileData := [1, 2, 3], mimeType := "image/png" }
      sampleRow (fun _ => "https://example.com/get") rfl (by decide)
      (fun _ => rfl) rfl
    simpa using h2
  · exact (dedup_cache_semantics [sampleRow] okEnv 2 "deadbeef").2.2
      { fileName := "b.png", fileData := [1, 2, 3], mimeType := "image/png" }
      { verdict := Verdict.ai
        aiConfidence := 953/1000
        generator := [("midjourney", 95/100), ("dall_e", 85/100)]
        raw := "rawImage" }
      (fun _ => "https://example.com/put") rfl (by decide)
      (by intro r hr hh
          simp only [List.mem_singleton] at hr
          subst hr
          decide)
      rfl (fun _ => rfl) (fun _ => rfl)

/-- Claim C4, counterexample: an audio submission supplied by URL whose
fetched buffer is one byte over the 50MB ceiling is rejected with the
expected client error, but only after the server has fetched the URL — a
network call — so the rejection does not happen before any network call. -/
theorem size_limit_counterexample :
    analyzeAudio fetchBigEnv 1
        { fileName := "a.mp3", fileData := none,
          fileUrl := some "https://cdn.example.com/a.mp3",
          mimeType := "audio/mpeg", audioType := "voice" }
      = (Except.error
          { code := ErrCode.BAD_REQUEST
            message := "Audio too large. Maximum size: 50MB" },
         [Event.fetchedUrl "https://cdn.example.com/a.mp3"]) ∧
      [Event.fetchedUrl "https://cdn.example.com/a.mp3"] ≠ ([] : List Event) := by
  constructor
  · unfold analyzeAudio
    rw [if_neg (not_not_intro (by decide))]
    have hrb : resolveBuffer fetchBigEnv (some "https://cdn.example.com/a.mp3") none
        = (Except.ok overAudioBuf,
           [Event.fetchedUrl "https://cdn.example.com/a.mp3"]) := rfl
    dsimp only
    rw [hrb]
    dsimp only
    rw [if_pos (by simp [overAudioBuf])]
  · simp

/-- Claim C4, amended: for inline payloads each media class accepts an
input of exactly the ceiling size (10MB image, 50MB audio, 100MB video,
50000-character text) and rejects one byte (or character) over it with a
BAD_REQUEST whose message names the limit, before any effect at all; but
for audio and video supplied by URL the server first fetches the URL — a
network call — and only then enforces the ceiling, so there the rejection
happens after one network call. -/
theorem size_ceiling_amended :
    ∀ (env : Env) (u : Nat),
      (∀ (input : ImageInput) (rep : AiGeneratedReport) (puturl : String → String),
        ALLOWED_IMAGE_TYPES.contains input.mimeType = true →
        input.fileData.length = MAX_IMAGE_SIZE →
        env.findDup u (env.hash input.fileData) = Except.ok none →
        env.detectImage = Except.ok rep →
        (∀ k, env.storagePutUrl k = Except.ok (puturl k)) →
        (∀ i, env.insertRow i = Except.ok ()) →
        ((analyzeImage env u input).1).map (fun r => r.success) = Except.ok true) ∧
      (∀ (input : ImageInput),
        ALLOWED_IMAGE_TYPES.contains input.mimeType = true →
        input.fileData.length = MAX_IMAGE_SIZE + 1 →
        analyzeImage env u input
          = (Except.error
              { code := ErrCode.BAD_REQUEST
                message := "Image too large. Maximum size: 10MB" }, []) ∧
          strContains "Image too large. Maximum size: 10MB" "10MB" = true) ∧
      (∀ (input : AudioInput) (buf : ByteBuf) (rep : AiGeneratedReport)
          (puturl : String → String),
        ALLOWED_AUDIO_TYPES.contains input.mimeType = true →
        input.fileUrl = none → input.fileData = some buf →
        buf.length = MAX_AUDIO_SIZE →
        env.findDup u (env.hash buf) = Except.ok none →
        (if input.audioType = "voice" then env.detectAudioVoice
          else env.detectAudioMusic) = Except.ok rep →
        (∀ k, env.storagePutUrl k = Except.ok (puturl k)) →
        (∀ i, env.insertRow i = Except.ok ()) →
        ((analyzeAudio env u input).1).map (fun r => r.success) = Except.ok true) ∧
      (∀ (input : AudioInput) (buf : ByteBuf),
        ALLOWED_AUDIO_TYPES.contains input.mimeType = true →
        input.fileUrl = none → input.fileData = some buf →
        buf.length = MAX_AUDIO_SIZE + 1 →
        analyzeAudio env u input
          = (Except.error
              { code := ErrCode.BAD_REQUEST
                message := "Audio too large. Maximum size: 50MB" }, []) ∧
          strContains "Audio too large. Maximum size: 50MB" "50MB" = true) ∧
      (∀ (input : VideoInput) (buf : ByteBuf) (rep : VideoReport)
          (puturl : String → String),
        ALLOWED_VIDEO_TYPES.contains input.mimeType = true →
        input.fileUrl = none → input.fileData = some buf →
        buf.length = MAX_VIDEO_SIZE →
        env.findDup u (env.hash buf) = Except.ok none →
        env.detectVideo = Except.ok rep →
        (∀ k, env.storagePutUrl k = Except.ok (puturl k)) →
        (∀ i, env.insertRow i = Except.ok ()) →
        ((analyzeVideo env u input).1).map (fun r => r.success) = Except.ok true) ∧
      (∀ (input : VideoInput) (buf : ByteBuf),
        ALLOWED_VIDEO_TYPES.contains input.mimeType = true →
        input.fileUrl = none → input.fileData = some buf →
        buf.length = MAX_VIDEO_SIZE + 1 →
        analyzeVideo env u input
          = (Except.error
              { code := ErrCode.BAD_REQUEST
                message := "Video too large. Maximum size: 100MB" }, []) ∧
          strContains "Video too large. Maximum size: 100MB" "100MB" = true) ∧
      (∀ (input : AudioInput) (url : String) (buf : ByteBuf),
        ALLOWED_AUDIO_TYPES.contains input.mimeType = true →
        input.fileUrl = some url → url ≠ "" →
        env.fetchUrl url = Except.ok buf →
        buf.length = MAX_AUDIO_SIZE + 1 →
        analyzeAudio env u input
          = (Except.error
              { code := ErrCode.BAD_REQUEST
                message := "Audio too large. Maximum size: 50MB" },
             [Event.fetchedUrl url])) ∧
      (∀ (input : VideoInput) (url : String) (buf : ByteBuf),
        ALLOWED_VIDEO_TYPES.contains input.mimeType = true →
        input.fileUrl = some url → url ≠ "" →
        env.fetchUrl url = Except.ok buf →
        buf.length = MAX_VIDEO_SIZE + 1 →
        analyzeVideo env u input
          = (Except.error
              { code := ErrCode.BAD_REQUEST
                message := "Video too large. Maximum size: 100MB" },
             [Event.fetchedUrl url])) ∧
      (∀ (t : String) (rep : AiGeneratedReport),
        t.length = MAX_TEXT_LENGTH →
        env.findDup u (env.hash (strBytes t)) = Except.ok none →
        env.detectText = Except.ok rep →
        (∀ i, env.insertRow i = Except.ok ()) →
        ((analyzeText env u t).1).map (fun r => r.success) = Except.ok true) ∧
      (∀ (t : String),
        t.length = MAX_TEXT_LENGTH + 1 →
        analyzeText env u t
          = (Except.error
              { code := ErrCode.BAD_REQUEST
                message := "String must contain at most 50000 character(s)" }, []) ∧
          strContains "String must contain at most 50000 character(s)" "50000" = true) := by
  intro env u
  refine ⟨?_, ?_, ?_, ?_, ?_, ?_, ?_, ?_, ?_, ?_⟩
  · intro input rep puturl hmime hlen hfd hdet hput hins
    unfold analyzeImage
    rw [if_neg (not_not_intro hmime),
      if_neg (show ¬ input.fileData.length > MAX_IMAGE_SIZE by
        rw [hlen]; exact lt_irrefl _)]
    dsimp only
    rw [hfd]
    dsimp only
    rw [hdet]
    dsimp only
    rw [hput]
    dsimp only
    rw [hins]
    rfl
  · intro input hmime hlen
    refine ⟨?_, by decide⟩
    unfold analyzeImage
    rw [if_neg (not_not_intro hmime),
      if_pos (show input.fileData.length > MAX_IMAGE_SIZE by
        rw [hlen]; exact Nat.lt_succ_self _)]
  · intro input buf rep puturl hmime hurl hdata hlen hfd hdet hput hins
    have hrb : resolveBuffer env input.fileUrl input.fileData = (Except.ok buf, []) := by
      rw [hurl, hdata]
      rfl
    unfold analyzeAudio
    rw [if_neg (not_not_intro hmime), hrb]
    dsimp only
    rw [if_neg (show ¬ buf.length > MAX_AUDIO_SIZE by
      rw [hlen]; exact lt_irrefl _)]
    unfold analyzeReportBody
    dsimp only
    rw [hfd]
    dsimp only
    rw [hdet]
    dsimp only
    rw [hput]
    dsimp only
    rw [hins]
    rfl
  · intro input buf hmime hurl hdata hlen
    refine ⟨?_, by decide⟩
    have hrb : resolveBuffer env input.fileUrl input.fileData = (Except.ok buf, []) := by
      rw [hurl, hdata]
      rfl
    unfold analyzeAudio
    rw [if_neg (not_not_intro hmime), hrb]
    dsimp only
    rw [if_pos (show buf.length > MAX_AUDIO_SIZE by
      rw [hlen]; exact Nat.lt_succ_self _)]
  · intro input buf rep puturl hmime hurl hdata hlen hfd hdet hput hins
    have hrb : resolveBuffer env input.fileUrl input.fileData = (Except.ok buf, []) := by
      rw [hurl, hdata]
      rfl
    unfold analyzeVideo
    rw [if_neg (not_not_intro hmime), hrb]
    dsimp only
    rw [if_neg (show ¬ buf.length > MAX_VIDEO_SIZE by
      rw [hlen]; exact lt_irrefl _)]
    try dsimp only
    rw [hfd]
    dsimp only
    rw [hdet]
    dsimp only
    rw [hput]
    dsimp only
    rw [hins]
    rfl
  · intro input buf hmime hurl hdata hlen
    refine ⟨?_, by decide⟩
    have hrb : resolveBuffer env input.fileUrl input.fileData = (Except.ok buf, []) := by
      rw [hurl, hdata]
      rfl
    unfold analyzeVideo
    rw [if_neg (not_not_intro hmime), hrb]
    dsimp only
    rw [if_pos (show buf.length > MAX_VIDEO_SIZE by
      rw [hlen]; exact Nat.lt_succ_self _)]
  · intro input url buf hmime hurl hne hfetch hlen
    have hrb : resolveBuffer env input.fileUrl input.fileData
        = (Except.ok buf, [Event.fetchedUrl url]) := by
      rw [hurl]
      unfold resolveBuffer
      rw [if_pos (show jsStr (some url) = true by simp [jsStr, hne])]
      dsimp only [Option.getD]
      rw [hfetch]
    unfold analyzeAudio
    rw [if_neg (not_not_intro hmime), hrb]
    dsimp only
    rw [if_pos (show buf.length > MAX_AUDIO_SIZE by
      rw [hlen]; exact Nat.lt_succ_self _)]
  · intro input url buf hmime hurl hne hfetch hlen
    have hrb : resolveBuffer env input.fileUrl input.fileData
        = (Except.ok buf, [Event.fetchedUrl url]) := by
      rw [hurl]
      unfold resolveBuffer
      rw [if_pos (show jsStr (some url) = true by simp [jsStr, hne])]
      dsimp only [Option.getD]
      rw [hfetch]
    unfold analyzeVideo
    rw [if_neg (not_not_intro hmime), hrb]
    dsimp only
    rw [if_pos (show buf.length > MAX_VIDEO_SIZE by
      rw [hlen]; exact Nat.lt_succ_self _)]
  · intro t rep hlen hfd hdet hins
    unfold analyzeText
    rw [if_neg (show ¬ t.length < 1 by rw [hlen]; simp [MAX_TEXT_LENGTH]),
      if_neg (show ¬ t.length > MAX_TEXT_LENGTH by rw [hlen]; exact lt_irrefl _)]
    dsimp only
    rw [hfd]
    dsimp only
    rw [hdet]
    dsimp only
    rw [hins]
    rfl
  · intro t hlen
    refine ⟨?_, by decide⟩
    unfold analyzeText
    rw [if_neg (show ¬ t.length < 1 by rw [hlen]; simp [MAX_TEXT_LENGTH]),
      if_pos (show t.length > MAX_TEXT_LENGTH by
        rw [hlen]; exact Nat.lt_succ_self _)]

/-- Claim C4, witness: concrete at-ceiling and one-over inputs for every
media class, against the all-success environment. -/
theorem size_ceiling_amended_witness :
    ((analyzeImage okEnv 1
        { fileName := "a.png", fileData := List.replicate MAX_IMAGE_SIZE 0,
          mimeType := "image/png" }).1).map (fun r => r.success) = Except.ok true ∧
    analyzeImage okEnv 1
        { fileName := "a.png", fileData := List.replicate (MAX_IMAGE_SIZE + 1) 0,
          mimeType := "image/png" }
      = (Except.error
          { code := ErrCode.BAD_REQUEST
            message := "Image too large. Maximum size: 10MB" }, []) ∧
    ((analyzeAudio okEnv 1
        { fileName := "a.mp3", fileData := some (List.replicate MAX_AUDIO_SIZE 0),
          fileUrl := none, mimeType := "audio/mpeg", audioType := "voice" }).1).map
        (fun r => r.success) = Except.ok true ∧
    analyzeAudio okEnv 1
        { fileName := "a.mp3", fileData := some (List.replicate (MAX_AUDIO_SIZE + 1) 0),
          fileUrl := none, mimeType := "audio/mpeg", audioType := "voice" }
      = (Except.error
          { code := ErrCode.BAD_REQUEST
            message := "Audio too large. Maximum size: 50MB" }, []) ∧
    ((analyzeVideo okEnv 1
        { fileName := "a.mp4", fileData := some (List.replicate MAX_VIDEO_SIZE 0),
          fileUrl := none, mimeType := "video/mp4" }).1).map
        (fun r => r.success) = Except.ok true ∧
    analyzeVideo okEnv 1
        { fileName := "a.mp4", fileData := some (List.replicate (MAX_VIDEO_SIZE + 1) 0),
          fileUrl := none, mimeType := "video/mp4" }
      = (Except.error
          { code := ErrCode.BAD_REQUEST
            message := "Video too large. Maximum size: 100MB" }, []) ∧
    analyzeAudio fetchBigEnv 1
        { fileName := "a.mp3", fileData := none,
          fileUrl := some "https://cdn.example.com/a.mp3",
          mimeType := "audio/mpeg", audioType := "voice" }
      = (Except.error
          { code := ErrCode.BAD_REQUEST
            message := "Audio too large. Maximum size: 50MB" },
         [Event.fetchedUrl "https://cdn.example.com/a.mp3"]) ∧
    analyzeVideo fetchBigVideoEnv 1
        { fileName := "a.mp4", fileData := none,
          fileUrl := some "https://cdn.example.com/a.mp4",
          mimeType := "video/mp4" }
      = (Except.error
          { code := ErrCode.BAD_REQUEST
            message := "Video too large. Maximum size: 100MB" },
         [Event.fetchedUrl "https://cdn.example.com/a.mp4"]) ∧
    ((analyzeText okEnv 1 (String.mk (List.replicate MAX_TEXT_LENGTH 'a'))).1).map
        (fun r => r.success) = Except.ok true ∧
    analyzeText okEnv 1 (String.mk (List.replicate (MAX_TEXT_LENGTH + 1) 'a'))
      = (Except.error
          { code := ErrCode.BAD_REQUEST
            message := "String must contain at most 50000 character(s)" }, []) := by
  have hthm := size_ceiling_amended okEnv 1
  have hthm2 := size_ceiling_amended fetchBigEnv 1
  have hthm3 := size_ceiling_amended fetchBigVideoEnv 1
  refine ⟨?_, ?_, ?_, ?_, ?_, ?_, ?_, ?_, ?_, ?_⟩
  · exact hthm.1
      { fileName := "a.png", fileData := List.replicate MAX_IMAGE_SIZE 0,
        mimeType := "image/png" }
      { verdict := Verdict.ai, aiConfidence := 953/1000
        generator := [("midjourney", 95/100), ("dall_e", 85/100)], raw := "rawImage" }
      (fun _ => "https://example.com/put")
      (by decide) (by simp) rfl rfl (fun _ => rfl) (fun _ => rfl)
  · exact (hthm.2.1
      { fileName := "a.png", fileData := List.replicate (MAX_IMAGE_SIZE + 1) 0,
        mimeType := "image/png" }
      (by decide) (by simp)).1
  · exact hthm.2.2.1
      { fileName := "a.mp3", fileData := some (List.replicate MAX_AUDIO_SIZE 0),
        fileUrl := none, mimeType := "audio/mpeg", audioType := "voice" }
      (List.replicate MAX_AUDIO_SIZE 0)
      { verdict := Verdict.human, aiConfidence := 1/10, generator := [], raw := "rawVoice" }
      (fun _ => "https://example.com/put")
      (by decide) rfl rfl (by simp) rfl rfl (fun _ => rfl) (fun _ => rfl)
  · exact (hthm.2.2.2.1
      { fileName := "a.mp3", fileData := some (List.replicate (MAX_AUDIO_SIZE + 1) 0),
        fileUrl := none, mimeType := "audio/mpeg", audioType := "voice" }
      (List.replicate (MAX_AUDIO_SIZE + 1) 0)
      (by decide) rfl rfl (by simp)).1
  · exact hthm.2.2.2.2.1
      { fileName := "a.mp4", fileData := some (List.replicate MAX_VIDEO_SIZE 0),
        fileUrl := none, mimeType := "video/mp4" }
      (List.replicate MAX_VIDEO_SIZE 0)
      { isDetected := true, confidence := 88/100, raw := "rawVideo" }
      (fun _ => "https://example.com/put")
      (by decide) rfl rfl (by simp) rfl rfl (fun _ => rfl) (fun _ => rfl)
  · exact (hthm.2.2.2.2.2.1
      { fileName := "a.mp4", fileData := some (List.replicate (MAX_VIDEO_SIZE + 1) 0),
        fileUrl := none, mimeType := "video/mp4" }
      (List.replicate (MAX_VIDEO_SIZE + 1) 0)
      (by decide) rfl rfl (by simp)).1
  · exact hthm2.2.2.2.2.2.2.1
      { fileName := "a.mp3", fileData := none,
        fileUrl := some "https://cdn.example.com/a.mp3",
        mimeType := "audio/mpeg", audioType := "voice" }
      "https://cdn.example.com/a.mp3" overAudioBuf
      (by decide) rfl (by decide) rfl (by simp [overAudioBuf])
  · exact hthm3.2.2.2.2.2.2.2.1
      { fileName := "a.mp4", fileData := none,
        fileUrl := some "https://cdn.example.com/a.mp4",
        mimeType := "video/mp4" }
      "https://cdn.example.com/a.mp4" overVideoBuf
      (by decide) rfl (by decide) rfl (by simp [overVideoBuf])
  · exact hthm.2.2.2.2.2.2.2.2.1
      (String.mk (List.replicate MAX_TEXT_LENGTH 'a'))
      { verdict := Verdict.ai, aiConfidence := 1/2, generator := [], raw := "rawText" }
      (by simp [String.length]) rfl rfl (fun _ => rfl)
  · exact (hthm.2.2.2.2.2.2.2.2.2
      (String.mk (List.replicate (MAX_TEXT_LENGTH + 1) 'a'))
      (by simp [String.length])).1

/-- Claim C6: storagePut tries the proxy first (a multipart upload call)
whenever the proxy base URL and API key are both truthy, returning
(key, url) on an OK response; on a non-OK proxy response, or when the proxy
is unconfigured, it falls back to a direct S3 PutObject when the client and
bucket are usable; and when neither backend is usable it throws the
configuration error.  The key returned is the normalized relative key. -/
theorem storagePut_behaviour :
    ∀ (env : StorageEnv) (relKey : String),
      (∀ resp : ProxyResponse,
        (jsStr (env.forgeApiUrl.map stripTrailingSlashes)
          && jsStr env.forgeApiKey) = true →
        env.proxyUpload = Except.ok resp → resp.ok = true →
        storagePut env relKey
          = (Except.ok (normalizeKey relKey, resp.url),
             [StorageEvent.proxyUploadCall (normalizeKey relKey)])) ∧
      (∀ resp : ProxyResponse,
        (jsStr (env.forgeApiUrl.map stripTrailingSlashes)
          && jsStr env.forgeApiKey) = true →
        env.proxyUpload = Except.ok resp → resp.ok = false →
        (s3ClientUsable env.s3 && jsStr env.s3.bucket) = true →
        env.s3Send = Except.ok () →
        storagePut env relKey
          = (Except.ok (normalizeKey relKey, s3ObjectUrl env.s3 (normalizeKey relKey)),
             [StorageEvent.proxyUploadCall (normalizeKey relKey),
              StorageEvent.s3PutObjectCall (env.s3.bucket.getD "") (normalizeKey relKey)])) ∧
      ((jsStr (env.forgeApiUrl.map stripTrailingSlashes)
          && jsStr env.forgeApiKey) = false →
        (s3ClientUsable env.s3 && jsStr env.s3.bucket) = true →
        env.s3Send = Except.ok () →
        storagePut env relKey
          = (Except.ok (normalizeKey relKey, s3ObjectUrl env.s3 (normalizeKey relKey)),
             [StorageEvent.s3PutObjectCall (env.s3.bucket.getD "") (normalizeKey relKey)])) ∧
      ((jsStr (env.forgeApiUrl.map stripTrailingSlashes)
          && jsStr env.forgeApiKey) = false →
        (s3ClientUsable env.s3 && jsStr env.s3.bucket) = false →
        storagePut env relKey
          = (Except.error
              "Storage configuration missing: set BUILT_IN_FORGE_API_KEY or S3 credentials",
             [])) ∧
      (∀ resp : ProxyResponse,
        (jsStr (env.forgeApiUrl.map stripTrailingSlashes)
          && jsStr env.forgeApiKey) = true →
        env.proxyUpload = Except.ok resp → resp.ok = false →
        (s3ClientUsable env.s3 && jsStr env.s3.bucket) = false →
        storagePut env relKey
          = (Except.error
              "Storage configuration missing: set BUILT_IN_FORGE_API_KEY or S3 credentials",
             [StorageEvent.proxyUploadCall (normalizeKey relKey)])) := by
  intro env relKey
  refine ⟨?_, ?_, ?_, ?_, ?_⟩
  · intro resp hcfg hpr hok
    unfold storagePut getStorageConfig
    dsimp only
    rw [if_pos hcfg, hpr]
    dsimp only
    rw [if_pos hok]
  · intro resp hcfg hpr hok hs3 hsend
    unfold storagePut getStorageConfig
    dsimp only
    rw [if_pos hcfg, hpr]
    dsimp only
    rw [if_neg (by simp [hok])]
    unfold storagePutS3
    rw [if_pos hs3, hsend]
  · intro hcfg hs3 hsend
    unfold storagePut getStorageConfig
    dsimp only
    rw [if_neg (by simp [hcfg])]
    unfold storagePutS3
    rw [if_pos hs3, hsend]
  · intro hcfg hs3
    unfold storagePut getStorageConfig
    dsimp only
    rw [if_neg (by simp [hcfg])]
    unfold storagePutS3
    rw [if_neg (by simp [hs3])]
  · intro resp hcfg hpr hok hs3
    unfold storagePut getStorageConfig
    dsimp only
    rw [if_pos hcfg, hpr]
    dsimp only
    rw [if_neg (by simp [hok])]
    unfold storagePutS3
    rw [if_neg (by simp [hs3])]

/-- Claim C6, witness: the configured proxy environment and its variants
with a failing proxy response and with the proxy or S3 removed. -/
theorem storagePut_behaviour_witness :
    storagePut proxyOkStorageEnv "/a/b.png"
      = (Except.ok ("a/b.png", "https://forge.example.com/files/x"),
         [StorageEvent.proxyUploadCall "a/b.png"]) ∧
    storagePut
        { proxyOkStorageEnv with proxyUpload := Except.ok { ok := false, url := "" } }
        "/a/b.png"
      = (Except.ok ("a/b.png",
           s3ObjectUrl proxyOkStorageEnv.s3 "a/b.png"),
         [StorageEvent.proxyUploadCall "a/b.png",
          StorageEvent.s3PutObjectCall "bkt" "a/b.png"]) ∧
    storagePut { proxyOkStorageEnv with forgeApiKey := none } "/a/b.png"
      = (Except.ok ("a/b.png",
           s3ObjectUrl proxyOkStorageEnv.s3 "a/b.png"),
         [StorageEvent.s3PutObjectCall "bkt" "a/b.png"]) ∧
    storagePut
        { proxyOkStorageEnv with
            forgeApiKey := none
            s3 := { proxyOkStorageEnv.s3 with bucket := none } }
        "/a/b.png"
      = (Except.error
          "Storage configuration missing: set BUILT_IN_FORGE_API_KEY or S3 credentials",
         []) := by
  have h1 := storagePut_behaviour proxyOkStorageEnv "/a/b.png"
  have h2 := storagePut_behaviour
    { proxyOkStorageEnv with proxyUpload := Except.ok { ok := false, url := "" } }
    "/a/b.png"
  have h3 := storagePut_behaviour
    { proxyOkStorageEnv with forgeApiKey := none } "/a/b.png"
  have h4 := storagePut_behaviour
    { proxyOkStorageEnv with
        forgeApiKey := none
        s3 := { proxyOkStorageEnv.s3 with bucket := none } }
    "/a/b.png"
  refine ⟨?_, ?_, ?_, ?_⟩
  · exact h1.1 { ok := true, url := "https://forge.example.com/files/x" }
      (by decide) rfl rfl
  · exact h2.2.1 { ok := false, url := "" } (by decide) rfl rfl (by decide) rfl
  · exact h3.2.2.1 (by decide) (by decide) rfl
  · exact h4.2.2.2.1 (by decide) (by decide)

/-- mustEnv fails only with the message naming the missing variable. -/
theorem mustEnv_error (v : Option String) (n e : String)
    (h : mustEnv v n = Except.error e) : e = "Missing env: " ++ n := by
  unfold mustEnv at h
  cases v with
  | none =>
    simp only [Except.error.injEq] at h
    exact h.symm
  | some s =>
    dsimp only at h
    by_cases hs : s ≠ ""
    · rw [if_pos hs] at h
      simp at h
    · rw [if_neg hs] at h
      simp only [Except.error.injEq] at h
      exact h.symm

/-- Any failure message of the first upload body is either one of the fixed
handler messages, the message carried by the busboy error, or the message
carried by the storage upload error. -/
theorem uploadBody_error_provenance (env : UploadEnv) (now : Nat)
    (req : UploadRequest) (msg : String)
    (h : uploadBody env now req = Except.error msg) :
    msg ∈ uploadFixedMessages ∨ req.busboyError = some msg ∨
      env.uploadDone = Except.error msg := by
  unfold uploadBody at h
  split at h
  · rename_i e heq
    simp only [Except.error.injEq] at h
    subst h
    exact Or.inl (by simp [uploadFixedMessages, mustEnv_error _ _ _ heq])
  · split at h
    · rename_i e heq
      simp only [Except.error.injEq] at h
      subst h
      exact Or.inl (by simp [uploadFixedMessages, mustEnv_error _ _ _ heq])
    · split at h
      · rename_i e heq
        simp only [Except.error.injEq] at h
        subst h
        exact Or.inl (by simp [uploadFixedMessages, mustEnv_error _ _ _ heq])
      · split at h
        · rename_i e heq
          simp only [Except.error.injEq] at h
          subst h
          exact Or.inl (by simp [uploadFixedMessages, mustEnv_error _ _ _ heq])
        · split at h
          · rename_i e heq
            simp only [Except.error.injEq] at h
            subst h
            exact Or.inr (Or.inl heq)
          · split at h
            · simp only [Except.error.injEq] at h
              subst h
              exact Or.inl (by simp [uploadFixedMessages])
            · split at h
              · split at h
                · rename_i e heq
                  simp only [Except.error.injEq] at h
                  subst h
                  exact Or.inr (Or.inr heq)
                · simp at h
              · split at h
                · rename_i e heq
                  simp only [Except.error.injEq] at h
                  subst h
                  exact Or.inr (Or.inr heq)
                · simp at h

/-- Claim C7: in the upload handler, a method that is neither POST nor
OPTIONS is answered 405 with a Method Not Allowed JSON body; OPTIONS is
answered 204 with the CORS headers and an empty body; and a configured
multipart POST with no file field is answered with the explicit no-file
error. -/
theorem upload_handler_methods :
    ∀ (env : UploadEnv) (now : Nat) (req : UploadRequest),
      (req.method ≠ "POST" → req.method ≠ "OPTIONS" →
        uploadHandler env now req
          = { status := 405
              headers := corsHeaders ++ [("Content-Type", "application/json; charset=utf-8")]
              body := RespBody.jsonBody [("error", "Method Not Allowed")] }) ∧
      (req.method = "OPTIONS" →
        uploadHandler env now req
          = { status := 204, headers := corsHeaders, body := RespBody.emptyBody }) ∧
      (∀ bu pb ak sk,
        req.method = "POST" →
        req.busboyError = none →
        req.filePart = none →
        env.s3Bucket = some bu → bu ≠ "" →
        env.s3PublicBase = some pb → pb ≠ "" →
        env.s3AccessKeyId = some ak → ak ≠ "" →
        env.s3SecretAccessKey = some sk → sk ≠ "" →
        uploadHandler env now req
          = { status := 500
              headers := corsHeaders ++ [("Content-Type", "application/json; charset=utf-8")]
              body := RespBody.jsonBody
                [("error", "UPLOAD_FAILED"),
                 ("message", "No file field provided (expected form field \x27file\x27)")] } ∧
          strContains "No file field provided (expected form field \x27file\x27)"
              "No file field" = true) := by
  intro env now req
  refine ⟨?_, ?_, ?_⟩
  · intro hpost hopt
    unfold uploadHandler
    rw [if_neg hopt, if_pos hpost]
  · intro hopt
    unfold uploadHandler
    rw [if_pos hopt]
  · intro bu pb ak sk hm hbe hfp hbu hbune hpb hpbne hak hakne hsk hskne
    refine ⟨?_, by decide⟩
    have hbody : uploadBody env now req
        = Except.error "No file field provided (expected form field \x27file\x27)" := by
      unfold uploadBody
      rw [hbu, hpb, hak, hsk, hbe, hfp]
      unfold mustEnv
      dsimp only
      rw [if_pos hbune, if_pos hpbne, if_pos hakne, if_pos hskne]
    unfold uploadHandler
    rw [hm]
    rw [if_neg (show ¬ ("POST" : String) = "OPTIONS" by decide),
      if_neg (show ¬ ("POST" : String) ≠ "POST" by simp)]
    rw [hbody]

/-- Claim C7, witness: a GET, an OPTIONS and a configured no-file POST. -/
theorem upload_handler_methods_witness :
    uploadHandler okUploadEnv 5 { method := "GET", busboyError := none, filePart := none }
      = { status := 405
          headers := corsHeaders ++ [("Content-Type", "application/json; charset=utf-8")]
          body := RespBody.jsonBody [("error", "Method Not Allowed")] } ∧
    uploadHandler okUploadEnv 5 { method := "OPTIONS", busboyError := none, filePart := none }
      = { status := 204, headers := corsHeaders, body := RespBody.emptyBody } ∧
    uploadHandler okUploadEnv 5 { method := "POST", busboyError := none, filePart := none }
      = { status := 500
          headers := corsHeaders ++ [("Content-Type", "application/json; charset=utf-8")]
          body := RespBody.jsonBody
            [("error", "UPLOAD_FAILED"),
             ("message", "No file field provided (expected form field \x27file\x27)")] } := by
  refine ⟨?_, ?_, ?_⟩
  · exact (upload_handler_methods okUploadEnv 5
      { method := "GET", busboyError := none, filePart := none }).1
      (by decide) (by decide)
  · exact (upload_handler_methods okUploadEnv 5
      { method := "OPTIONS", busboyError := none, filePart := none }).2.1 rfl
  · exact ((upload_handler_methods okUploadEnv 5
      { method := "POST", busboyError := none, filePart := none }).2.2
      "bucket" "https://cdn.example.com" "AKIA_TEST" "SECRET_TEST"
      rfl rfl rfl rfl (by decide) rfl (by decide) rfl (by decide) rfl (by decide)).1

/-- Claim C8, counterexample: the second upload handler document answers a
failing request (here: no configuration, no file field) with the fixed
plain-text line, which is not a structured JSON error object. -/
theorem upload_plaintext_counterexample :
    (uploadHandlerV2 emptyUploadEnv 0
        { method := "POST", busboyError := none, filePart := none }).body
      = RespBody.textBody "A server error has occurred" ∧
    ((uploadHandlerV2 emptyUploadEnv 0
        { method := "POST", busboyError := none, filePart := none }).body).isJson
      = false := by
  constructor
  · rfl
  · rfl

/-- Claim C8, amended: every failure of the first upload handler is
answered with the structured JSON body with error UPLOAD_FAILED, whose
message is one of the fixed handler messages (variable names and the
no-file text — never a credential value) or the underlying busboy or
message carried by the busboy or storage error; the second handler instead answers
every body failure with the fixed plain-text line, also credential-free but
not JSON. -/
theorem upload_failure_bodies :
    ∀ (env : UploadEnv) (now : Nat) (req : UploadRequest),
      (∀ msg, req.method = "POST" →
        uploadBody env now req = Except.error msg →
        uploadHandler env now req
          = { status := 500
              headers := corsHeaders ++ [("Content-Type", "application/json; charset=utf-8")]
              body := RespBody.jsonBody [("error", "UPLOAD_FAILED"), ("message", msg)] } ∧
        (RespBody.jsonBody [("error", "UPLOAD_FAILED"), ("message", msg)]).isJson = true ∧
        (msg ∈ uploadFixedMessages ∨ req.busboyError = some msg ∨
          env.uploadDone = Except.error msg)) ∧
      (∀ msg, req.method = "POST" →
        uploadBodyV2 env now req = Except.error msg →
        uploadHandlerV2 env now req
          = { status := 500, headers := corsHeaders
              body := RespBody.textBody "A server error has occurred" } ∧
        ((uploadHandlerV2 env now req).body).isJson = false) := by
  intro env now req
  constructor
  · intro msg hm hfail
    refine ⟨?_, rfl, uploadBody_error_provenance env now req msg hfail⟩
    unfold uploadHandler
    rw [hm]
    rw [if_neg (show ¬ ("POST" : String) = "OPTIONS" by decide),
      if_neg (show ¬ ("POST" : String) ≠ "POST" by simp)]
    rw [hfail]
  · intro msg hm hfail
    have hh : uploadHandlerV2 env now req
        = { status := 500, headers := corsHeaders
            body := RespBody.textBody "A server error has occurred" } := by
      unfold uploadHandlerV2
      rw [hm]
      rw [if_neg (show ¬ ("POST" : String) = "OPTIONS" by decide),
        if_neg (show ¬ ("POST" : String) ≠ "POST" by simp)]
      rw [hfail]
    exact ⟨hh, by rw [hh]; rfl⟩

/-- Claim C8, witness: the unconfigured environment fails with the missing
bucket variable name in a structured JSON body (first handler) and the
fixed plain-text line (second handler). -/
theorem upload_failure_bodies_witness :
    uploadHandler emptyUploadEnv 0 { method := "POST", busboyError := none, filePart := none }
      = { status := 500
          headers := corsHeaders ++ [("Content-Type", "application/json; charset=utf-8")]
          body := RespBody.jsonBody
            [("error", "UPLOAD_FAILED"), ("message", "Missing env: S3_BUCKET")] } ∧
    uploadHandlerV2 emptyUploadEnv 0 { method := "POST", busboyError := none, filePart := none }
      = { status := 500, headers := corsHeaders
          body := RespBody.textBody "A server error has occurred" } := by
  constructor
  · exact ((upload_failure_bodies emptyUploadEnv 0
      { method := "POST", busboyError := none, filePart := none }).1
      "Missing env: S3_BUCKET" rfl rfl).1
  · exact ((upload_failure_bodies emptyUploadEnv 0
      { method := "POST", busboyError := none, filePart := none }).2
      "Missing env: S3_BUCKET" rfl rfl).1

/-- The buffer-resolution step never inserts a row. -/
theorem resolveBuffer_no_inserts (env : Env) (fu : Option String)
    (fd : Option ByteBuf) : insertsOf (resolveBuffer env fu fd).2 = [] := by
  unfold resolveBuffer
  split
  · split
    · rfl
    · rfl
  · split
    · rfl
    · rfl

/-- Claim C9: every insert object any analyze operation passes to
createDetectionResult carries isDuplicate 0, and the materialised row keeps
isDuplicate 0 with duplicateOfId NULL (the insert object has no such
field); moreover a duplicate hit performs no insert at all. -/
theorem inserted_rows_never_duplicates :
    ∀ (env : Env) (u : Nat) (ii : ImageInput) (ai : AudioInput)
      (vi : VideoInput) (t : String) (id ts : Nat),
      (∀ ins ∈ insertsOf (analyzeImage env u ii).2,
        ins.isDuplicate = 0 ∧ (rowOfInsert id ts ins).isDuplicate = 0 ∧
          (rowOfInsert id ts ins).duplicateOfId = none) ∧
      (∀ ins ∈ insertsOf (analyzeAudio env u ai).2,
        ins.isDuplicate = 0 ∧ (rowOfInsert id ts ins).isDuplicate = 0 ∧
          (rowOfInsert id ts ins).duplicateOfId = none) ∧
      (∀ ins ∈ insertsOf (analyzeVideo env u vi).2,
        ins.isDuplicate = 0 ∧ (rowOfInsert id ts ins).isDuplicate = 0 ∧
          (rowOfInsert id ts ins).duplicateOfId = none) ∧
      (∀ ins ∈ insertsOf (analyzeText env u t).2,
        ins.isDuplicate = 0 ∧ (rowOfInsert id ts ins).isDuplicate = 0 ∧
          (rowOfInsert id ts ins).duplicateOfId = none) ∧
      (∀ dup, env.findDup u (env.hash ii.fileData) = Except.ok (some dup) →
        ALLOWED_IMAGE_TYPES.contains ii.mimeType = true →
        ¬ ii.fileData.length > MAX_IMAGE_SIZE →
        insertsOf (analyzeImage env u ii).2 = []) := by
  intro env u ii ai vi t id ts
  refine ⟨?_, ?_, ?_, ?_, ?_⟩
  · intro ins hins
    unfold analyzeImage cachedBranch at hins
    iterate 12 (all_goals (try (first | dsimp only at hins | split at hins)))
    all_goals
      first
      | (simp [insertsOf] at hins; done)
      | (simp [insertsOf] at hins
         subst hins
         exact ⟨rfl, rfl, rfl⟩)
  · intro ins hins
    have h0 := resolveBuffer_no_inserts env ai.fileUrl ai.fileData
    rcases hrb : resolveBuffer env ai.fileUrl ai.fileData with ⟨rb, evs⟩
    rw [hrb] at h0
    simp only [insertsOf] at h0
    unfold analyzeAudio analyzeReportBody cachedBranch at hins
    rw [hrb] at hins
    cases rb
    iterate 14 (all_goals (try (first | dsimp only at hins | split at hins)))
    all_goals
      first
      | (simp [insertsOf, List.filterMap_append, h0] at hins; done)
      | (simp [insertsOf, List.filterMap_append, h0] at hins
         subst hins
         exact ⟨rfl, rfl, rfl⟩)
  · intro ins hins
    have h0 := resolveBuffer_no_inserts env vi.fileUrl vi.fileData
    rcases hrb : resolveBuffer env vi.fileUrl vi.fileData with ⟨rb, evs⟩
    rw [hrb] at h0
    simp only [insertsOf] at h0
    unfold analyzeVideo cachedBranch at hins
    rw [hrb] at hins
    cases rb
    iterate 14 (all_goals (try (first | dsimp only at hins | split at hins)))
    all_goals
      first
      | (simp [insertsOf, List.filterMap_append, h0] at hins; done)
      | (simp [insertsOf, List.filterMap_append, h0] at hins
         subst hins
         exact ⟨rfl, rfl, rfl⟩)
  · intro ins hins
    unfold analyzeText at hins
    iterate 12 (all_goals (try (first | dsimp only at hins | split at hins)))
    all_goals
      first
      | (simp [insertsOf] at hins; done)
      | (simp [insertsOf] at hins
         subst hins
         exact ⟨rfl, rfl, rfl⟩)
  · intro dup hdup hmime hsize
    unfold analyzeImage
    rw [if_neg (not_not_intro hmime), if_neg hsize]
    dsimp only
    rw [hdup]
    unfold cachedBranch
    dsimp only
    split
    · split
      · rfl
      · rfl
    · rfl

/-- Claim C9, witness: the concrete insert of the all-success environment
run, and the empty insert set of a duplicate hit. -/
theorem inserted_rows_never_duplicates_witness :
    ({ userId := 1
       fileName := "a.png"
       fileType := "image"
       fileSize := 3
       fileHash := some "deadbeef"
       s3Key := some "detections/1/images/1000-a.png"
       verdict := Verdict.ai
       confidence := formatConfidence (953/1000)
       detectedGenerator :=
         getTopDetectedGenerator [("midjourney", (95 : ℚ)/100), ("dall_e", (85 : ℚ)/100)]
       generatorScores := []
       rawResponse := "rawImage"
       processingTimeMs := 123
       isDuplicate := 0 } : InsertDetectionResult).isDuplicate = 0 ∧
    (rowOfInsert 7 10
      { userId := 1
        fileName := "a.png"
        fileType := "image"
        fileSize := 3
        fileHash := some "deadbeef"
        s3Key := some "detections/1/images/1000-a.png"
        verdict := Verdict.ai
        confidence := formatConfidence (953/1000)
        detectedGenerator :=
          getTopDetectedGenerator [("midjourney", (95 : ℚ)/100), ("dall_e", (85 : ℚ)/100)]
        generatorScores := []
        rawResponse := "rawImage"
        processingTimeMs := 123
        isDuplicate := 0 }).isDuplicate = 0 ∧
    (rowOfInsert 7 10
      { userId := 1
        fileName := "a.png"
        fileType := "image"
        fileSize := 3
        fileHash := some "deadbeef"
        s3Key := some "detections/1/images/1000-a.png"
        verdict := Verdict.ai
        confidence := formatConfidence (953/1000)
        detectedGenerator :=
          getTopDetectedGenerator [("midjourney", (95 : ℚ)/100), ("dall_e", (85 : ℚ)/100)]
        generatorScores := []
        rawResponse := "rawImage"
        processingTimeMs := 123
        isDuplicate := 0 }).duplicateOfId = none := by
  have h := (inserted_rows_never_duplicates okEnv 1
    { fileName := "a.png", fileData := [1, 2, 3], mimeType := "image/png" }
    { fileName := "a.mp3", fileData := some [1], fileUrl := none,
      mimeType := "audio/mpeg", audioType := "voice" }
    { fileName := "a.mp4", fileData := some [1], fileUrl := none, mimeType := "video/mp4" }
    "hello" 7 10).1
  exact h _ (by exact List.mem_singleton.mpr rfl)

/-- Membership in insertDescBy. -/
theorem mem_insertDescBy (f : DetectionRow → Nat) (r x : DetectionRow)
    (l : List DetectionRow) :
    x ∈ insertDescBy f r l ↔ x = r ∨ x ∈ l := by
  induction l with
  | nil => simp [insertDescBy]
  | cons y ys ih =>
    unfold insertDescBy
    by_cases h : f y ≤ f r
    · rw [if_pos h]
      simp [List.mem_cons]
    · rw [if_neg h]
      simp only [List.mem_cons, ih]
      tauto

/-- sortDescBy permutes membership. -/
theorem mem_sortDescBy (f : DetectionRow → Nat) (x : DetectionRow)
    (l : List DetectionRow) :
    x ∈ sortDescBy f l ↔ x ∈ l := by
  induction l with
  | nil => simp [sortDescBy]
  | cons y ys ih =>
    unfold sortDescBy
    rw [mem_insertDescBy]
    simp [ih]

/-- Claim C10: for a caller with positive user id, each read procedure
(getResult, getHistory, getFilteredHistory, exportResults) returns only
rows owned by that caller. -/
theorem read_procedures_scoped :
    ∀ (db : List DetectionRow) (uid : Nat), 0 < uid →
      (∀ id r, getResultProc db uid id = some r → r.userId = uid) ∧
      (∀ limit r, r ∈ getHistoryProc db uid limit → r.userId = uid) ∧
      (∀ filters limit r,
        r ∈ getFilteredHistoryProc db uid filters limit → r.userId = uid) ∧
      (∀ ids r, r ∈ exportResultsRows db uid ids → r.userId = uid) := by
  intro db uid hpos
  have hne : uid ≠ 0 := Nat.pos_iff_ne_zero.mp hpos
  refine ⟨?_, ?_, ?_, ?_⟩
  · intro id r hres
    unfold getResultProc getDetectionResultById at hres
    have hmem := headMem hres
    have hp := List.of_mem_filter hmem
    simp only [if_pos hne, Bool.and_eq_true, beq_iff_eq] at hp
    exact hp.2
  · intro limit r hmem
    unfold getHistoryProc getUserDetectionHistory at hmem
    rw [mem_sortDescBy] at hmem
    have hp := List.of_mem_filter hmem
    simp only [beq_iff_eq] at hp
    exact hp
  · intro filters limit r hmem
    unfold getFilteredHistoryProc getFilteredDetectionHistory at hmem
    have hmem2 := List.mem_of_mem_take hmem
    rw [mem_sortDescBy] at hmem2
    have hp := List.of_mem_filter hmem2
    simp only [Bool.and_eq_true, beq_iff_eq] at hp
    exact hp.1.1
  · intro ids r hmem
    unfold exportResultsRows getDetectionResultsForExport at hmem
    rw [mem_sortDescBy] at hmem
    have hp := List.of_mem_filter hmem
    simp only [Bool.and_eq_true, beq_iff_eq] at hp
    exact hp.1

/-- Claim C10, witness: the one-row database of user 1 under each of the
four read procedures. -/
theorem read_procedures_scoped_witness :
    sampleRow.userId = 1 ∧ sampleRow.userId = 1 ∧
      sampleRow.userId = 1 ∧ sampleRow.userId = 1 := by
  have h := read_procedures_scoped [sampleRow] 1 (by decide)
  refine ⟨?_, ?_, ?_, ?_⟩
  · exact h.1 7 sampleRow rfl
  · exact h.2.1 50 sampleRow (by exact List.mem_singleton.mpr rfl)
  · exact h.2.2.1
      { verdict := none, fileType := none, startDate := none, endDate := none }
      50 sampleRow (by exact List.mem_singleton.mpr rfl)
  · exact h.2.2.2 [7] sampleRow (by exact List.mem_singleton.mpr rfl)

end Vidary
